import Mathlib

/-!
Verification of the core of `aws-apigw-ws-emulator` (a local emulator of the
AWS API Gateway WebSocket service) against its natural-language specification.

The TypeScript source (`src/server.ts`, `src/types.ts`) is shallowly embedded:

* JavaScript objects used as string-keyed records (`Record<string, T>`,
  `Map<string, T>`) become association lists `List (String × T)` with
  `alookup` / `aset` / `aerase`.  For the route table, whose entries are read
  with plain property accesses whose truthiness is tested
  (`this.config.routes[k]`), the prototype chain of a plain object literal is
  modelled explicitly by `propRead`: a key with no own entry that names an
  `Object.prototype` member (`toString`, `hasOwnProperty`, …) yields an
  inherited truthy value that is not an integration.  For parsed JSON values
  the `key in value` walk is modelled own-key-only: every value the source
  can reach through an inherited member of `Object.prototype` or
  `Array.prototype` is a built-in function, `Object.prototype` itself (via
  the `__proto__` accessor) or `null`, never a string, so the walk's
  divergence can only move between the non-string-terminal and failed-walk
  cases, which the selector maps to the same `$default` outcome.
* `JSON.parse` results become the inductive `Json`; since `JSON.parse` is an
  external builtin, functions that consume a parse result take the
  `Option Json` outcome as a parameter (`none` models a parse exception).
* Wall-clock reads (`new Date()`, `Date.now()`) and the random id generators
  become explicit parameters (`now`, `requestId`, `freshMessageId`).
* The fields `getUTCDate`, `getUTCMonth`, … of the JavaScript `Date` builtin
  are modelled for epochs `≥ 1970-01-01` by the proleptic-Gregorian
  `civilFromDays` conversion, the same calendar ECMAScript prescribes.
* The stateful gateway (`connections`, `timeoutTimers`, the outbound `fetch`
  calls and the frames written to sockets) becomes a state machine
  `GatewayState` driven by the observable JavaScript events (connection
  admission, the `$connect` callback result, inbound frames, socket close
  events, management HTTP requests, `stop()`).  Because the `ws` event
  handlers capture the `Connection` object in a closure (they do not look it
  up in the live map), the state keeps a `registry` of all created
  connection objects next to the `live` key set of the `connections` map.
-/

/-! ### Association lists (JS records and Maps) -/

/-- Lookup in a string-keyed association list (JS property read / `Map.get`). -/
def alookup {α : Type} (k : String) : List (String × α) → Option α
  | [] => none
  | e :: rest => if e.1 = k then some e.2 else alookup k rest

/-- Remove a key (JS `Map.delete` / helper for `aset`). -/
def aerase {α : Type} (k : String) (l : List (String × α)) : List (String × α) :=
  l.filter (fun e => e.1 != k)

/-- Insert-or-replace a key (JS property write / `Map.set`).  Entry order is
    irrelevant to every lookup and count in this development. -/
def aset {α : Type} (k : String) (v : α) (l : List (String × α)) : List (String × α) :=
  (k, v) :: aerase k l

/-! ### JSON values (results of the external `JSON.parse`) -/

/-- A parsed JSON value.  Numbers carry an `Int`; the emulator never inspects
    numeric values beyond their runtime type, so the lost fractional part is
    irrelevant to every modelled function. -/
inductive Json where
  | null
  | bool (b : Bool)
  | num (n : Int)
  | str (s : String)
  | arr (elems : List Json)
  | obj (fields : List (String × Json))
deriving Repr

/-- Canonical array-index strings, as used by JS property lookup on arrays
    (`"0"`, `"1"`, …; `"00"` or `"+1"` are not canonical). -/
def canonicalIndex (s : String) : Option Nat :=
  match s.toNat? with
  | some n => if Nat.repr n = s then some n else none
  | none => none

/-- JS `key in value` member access for parsed JSON values (own properties).
    Arrays expose their canonical indices and `length`.  `JSON.parse` defines
    every key of the source text — `"__proto__"` included — as an *own* data
    property, so own keys are exactly the JSON keys.  The `in` operator of
    the source also finds inherited `Object.prototype` / `Array.prototype`
    members, but each such read yields a built-in function,
    `Object.prototype` itself or `null` — never a string and never a parsed
    value — so in `selectRoute` those reads can only end in the
    non-string-terminal or walk-stopped cases, both of which return
    `$default`, the same outcome this own-key model produces; the
    prototype-sensitive truthiness test on the route table is modelled
    separately by `propRead`. -/
def jsMember (v : Json) (k : String) : Option Json :=
  match v with
  | .obj fields => alookup k fields
  | .arr elems =>
      if k = "length" then some (.num elems.length)
      else
        match canonicalIndex k with
        | some i => elems[i]?
        | none => none
  | _ => none

/-- The guard `value && typeof value === 'object'` of `selectRoute`: in JS
    both plain objects and arrays have `typeof` `'object'`; `null` does too
    but is falsy and fails the `value &&` test. -/
def isTruthyObject (v : Json) : Bool :=
  match v with
  | .obj _ => true
  | .arr _ => true
  | _ => false

/-- The member-walking loop of `selectRoute` (`server.ts` lines 245-251):
    at each step the current value must be a truthy object carrying the key,
    otherwise the walk fails. -/
def walkPath (v : Json) : List String → Option Json
  | [] => some v
  | k :: ks =>
      if isTruthyObject v then
        match jsMember v k with
        | some v2 => walkPath v2 ks
        | none => none
      else none

/-! ### Configuration (`src/types.ts`) -/

/-- Integration mode for backend communication (`src/types.ts`).  Its own doc
    comment promises that in `http` mode the connection id travels in the
    header `connectionId`, query parameters are forwarded as URL parameters
    and the message body is sent directly, not wrapped. -/
inductive IntegrationMode where
  | lambda_proxy
  | http
deriving DecidableEq, Repr

structure RouteIntegration where
  uri : String
deriving DecidableEq, Repr

structure GatewayConfig where
  port : Nat
  stage : String
  apiId : String
  domainName : String
  integrationMode : IntegrationMode
  routeSelectionExpression : Option String
  routes : List (String × RouteIntegration)
  idleTimeout : Nat
  hardTimeout : Nat
  verbose : Bool

/-- `DEFAULT_CONFIG` of `src/types.ts`. -/
def DEFAULT_CONFIG : GatewayConfig :=
  { port := 3001
    stage := "local"
    apiId := "local"
    domainName := "localhost:3001"
    integrationMode := .lambda_proxy
    routeSelectionExpression := none
    routes :=
      [ ("$connect", ⟨"http://localhost:8080/ws/connect"⟩)
      , ("$disconnect", ⟨"http://localhost:8080/ws/disconnect"⟩)
      , ("$default", ⟨"http://localhost:8080/ws/default"⟩) ]
    idleTimeout := 600
    hardTimeout := 7200
    verbose := false }

/-! ### Route selection (`server.ts` lines 235-262) -/

/-- Split a character list at every occurrence of `sep`, like the JS
    `String.prototype.split` with a one-character separator (adjacent
    separators yield empty groups). -/
def splitOnChar (sep : Char) : List Char → List (List Char)
  | [] => [[]]
  | c :: rest =>
      match splitOnChar sep rest with
      | [] => [[]]
      | g :: gs => if c = sep then [] :: g :: gs else (c :: g) :: gs

/-- Match of the literal prefix `$request.body.` of the route-selection
    regex. -/
def rseRest : List Char → Option (List Char)
  | '$' :: 'r' :: 'e' :: 'q' :: 'u' :: 'e' :: 's' :: 't' :: '.' :: 'b' :: 'o' :: 'd' :: 'y' ::
      '.' :: rest => some rest
  | _ => none

/-- The regex `^\$request\.body\.(.+)$` followed by `split('.')`.  A JS `.`
    does not match line terminators, hence the newline test; the remainder
    must be non-empty (`.+`). -/
def rsePath (e : String) : Option (List String) :=
  match rseRest e.data with
  | some rest =>
      if rest.isEmpty || rest.any (fun c => c == '\n' || c == '\r') then none
      else some ((splitOnChar '.' rest).map (fun g => String.mk g))
  | none => none

/-- The own-property names of `Object.prototype` (ECMAScript): the names a
    property read on a plain object literal finds through the prototype
    chain when no own key matches.  Every one of them holds a truthy value —
    a built-in function, or `Object.prototype` itself behind the
    `__proto__` accessor. -/
def objectPrototypeKeys : List String :=
  ["constructor", "hasOwnProperty", "isPrototypeOf", "propertyIsEnumerable",
   "toLocaleString", "toString", "valueOf", "__proto__",
   "__defineGetter__", "__defineSetter__", "__lookupGetter__", "__lookupSetter__"]

/-- Outcome of the JS property read `this.config.routes[k]` on the
    plain-object route table: an own key yields its `RouteIntegration`
    record; a non-own key naming an `Object.prototype` member yields the
    inherited value — truthy, but not an integration, so its `.uri` read
    gives `undefined`; any other key yields `undefined`. -/
inductive PropVal where
  | integ (i : RouteIntegration)
  | inherited
  | absent
deriving DecidableEq, Repr

def propRead (routes : List (String × RouteIntegration)) (k : String) : PropVal :=
  match alookup k routes with
  | some i => .integ i
  | none => if objectPrototypeKeys.contains k then .inherited else .absent

/-- JS truthiness of such a property read: only `undefined` is falsy;
    integration records and inherited prototype members are truthy. -/
def isTruthyProp : PropVal → Bool
  | .absent => false
  | _ => true

/-- `selectRoute` (`server.ts` lines 235-262).  `parsed` is the outcome of the
    external `JSON.parse` on the message text (`none` = the `catch` branch).
    An empty configured expression is falsy in JS and behaves like an absent
    one.  The final test `this.config.routes[value]` is the truthiness of a
    JS property read, which also finds inherited `Object.prototype` members
    (`propRead`), not a bare own-key membership test. -/
def selectRoute (cfg : GatewayConfig) (parsed : Option Json) : String :=
  match cfg.routeSelectionExpression with
  | none => "$default"
  | some e =>
      if e = "" then "$default"
      else
        match parsed, rsePath e with
        | some v, some path =>
            match walkPath v path with
            | some (.str s) => if isTruthyProp (propRead cfg.routes s) then s else "$default"
            | _ => "$default"
        | _, _ => "$default"

/-! ### The JavaScript `Date` UTC fields (proleptic Gregorian calendar)

`formatRequestTime` reads `getUTCDate`, `getUTCMonth`, `getUTCFullYear`,
`getUTCHours`, `getUTCMinutes`, `getUTCSeconds` of a `Date` holding `now`
milliseconds since the epoch.  These builtins are modelled for `now ≥ 0`
(the process clock) by the standard civil-from-days conversion on the
proleptic Gregorian calendar, which is exactly the calendar ECMAScript
specifies for the `getUTC*` family. -/

/-- Year-of-era from day-of-era (`doe < 146097`). -/
def yoeOfDoe (doe : Nat) : Nat :=
  (doe - doe / 1460 + doe / 36524 - doe / 146096) / 365

/-- Day-of-year (March-based, `0`-based) from day-of-era. -/
def doyOfDoe (doe : Nat) : Nat :=
  doe - (365 * yoeOfDoe doe + yoeOfDoe doe / 4 - yoeOfDoe doe / 100)

/-- March-based month index (`0` = March … `11` = February) from day-of-year. -/
def mpOfDoy (doy : Nat) : Nat := (5 * doy + 2) / 153

/-- Civil date from the day number counted from 1970-01-01.
    Returns `(year, month 1..12, day 1..31)`. -/
def civilFromDays (z : Nat) : Nat × Nat × Nat :=
  let z2 := z + 719468
  let era := z2 / 146097
  let doe := z2 % 146097
  let yoe := yoeOfDoe doe
  let y := yoe + era * 400
  let doy := doyOfDoe doe
  let mp := mpOfDoy doy
  let d := doy - (153 * mp + 2) / 5 + 1
  let m := if mp < 10 then mp + 3 else mp - 9
  (if m ≤ 2 then y + 1 else y, m, d)

/-- Day number counted from 1970-01-01 of a civil date (used to interpret a
    decoded `requestTime` string as a UTC moment). -/
def daysFromCivil (y m d : Nat) : Nat :=
  let y2 := if m ≤ 2 then y - 1 else y
  let era := y2 / 400
  let yoe := y2 % 400
  let mp := if 3 ≤ m then m - 3 else m + 9
  let doy := (153 * mp + 2) / 5 + d - 1
  let doe := 365 * yoe + yoe / 4 - yoe / 100 + doy
  era * 146097 + doe - 719468

/-- JS `Date.prototype.getUTCDate` for nonnegative epochs. -/
def getUTCDate (t : Nat) : Nat := (civilFromDays (t / 86400000)).2.2

/-- JS `Date.prototype.getUTCMonth` (0-based) for nonnegative epochs. -/
def getUTCMonth (t : Nat) : Nat := (civilFromDays (t / 86400000)).2.1 - 1

/-- JS `Date.prototype.getUTCFullYear` for nonnegative epochs. -/
def getUTCFullYear (t : Nat) : Nat := (civilFromDays (t / 86400000)).1

/-- JS `Date.prototype.getUTCHours` for nonnegative epochs. -/
def getUTCHours (t : Nat) : Nat := t / 3600000 % 24

/-- JS `Date.prototype.getUTCMinutes` for nonnegative epochs. -/
def getUTCMinutes (t : Nat) : Nat := t / 60000 % 60

/-- JS `Date.prototype.getUTCSeconds` for nonnegative epochs. -/
def getUTCSeconds (t : Nat) : Nat := t / 1000 % 60

/-- Decimal digit character. -/
def digitCh (d : Nat) : Char := Char.ofNat (48 + d)

/-- Digit-list builder for `natToString`.  The first argument is fuel, always
    called with more fuel than `n` has digits, so the `0` branch is never
    reached on the actual calls. -/
def natToStringCore : Nat → Nat → List Char
  | 0, _n => []
  | fuel + 1, n =>
      if n < 10 then [digitCh n]
      else natToStringCore fuel (n / 10) ++ [digitCh (n % 10)]

/-- JS `Number.prototype.toString` for natural numbers (decimal). -/
def natToString (n : Nat) : String := ⟨natToStringCore (n + 1) n⟩

/-- The `pad` helper of `formatRequestTime`:
    `n.toString().padStart(2, '0')`. -/
def pad2 (n : Nat) : String :=
  if n < 10 then "0" ++ natToString n else natToString n

/-- The `months` array of `formatRequestTime`. -/
def monthsArr : List String :=
  ["Jan", "Feb", "Mar", "Apr", "May", "Jun", "Jul", "Aug", "Sep", "Oct", "Nov", "Dec"]

/-- `formatRequestTime` (`server.ts` lines 336-357): the string
    `DD/Mon/YYYY:HH:MM:SS +0000` built from the UTC fields of `now`. -/
def formatRequestTime (now : Nat) : String :=
  pad2 (getUTCDate now) ++ "/" ++ (monthsArr.getD (getUTCMonth now) "") ++ "/" ++
    natToString (getUTCFullYear now) ++ ":" ++
    pad2 (getUTCHours now) ++ ":" ++ pad2 (getUTCMinutes now) ++ ":" ++
    pad2 (getUTCSeconds now) ++ " +0000"

/-- Numeric value of a decimal digit character. -/
def digitVal (c : Char) : Nat := c.toNat - 48

/-- The month alternation `(Jan|Feb|…|Dec)` of the `requestTime` regex,
    returning the 1-based month number. -/
def monthIndex (s : String) : Option Nat :=
  if s = "Jan" then some 1 else if s = "Feb" then some 2 else if s = "Mar" then some 3
  else if s = "Apr" then some 4 else if s = "May" then some 5 else if s = "Jun" then some 6
  else if s = "Jul" then some 7 else if s = "Aug" then some 8 else if s = "Sep" then some 9
  else if s = "Oct" then some 10 else if s = "Nov" then some 11 else if s = "Dec" then some 12
  else none

/-- Consume one expected literal character of the regex. -/
def expectChar (c : Char) : List Char → Option (List Char)
  | x :: rest => if x = c then some rest else none
  | [] => none

/-- Consume `\d\x7b2\x7d` and return its value. -/
def read2Digits : List Char → Option (Nat × List Char)
  | a :: b :: rest =>
      if a.isDigit && b.isDigit then some (digitVal a * 10 + digitVal b, rest) else none
  | _ => none

/-- Consume `\d\x7b4\x7d` and return its value. -/
def read4Digits : List Char → Option (Nat × List Char)
  | a :: b :: c :: d :: rest =>
      if a.isDigit && b.isDigit && c.isDigit && d.isDigit then
        some (digitVal a * 1000 + digitVal b * 100 + digitVal c * 10 + digitVal d, rest)
      else none
  | _ => none

/-- Consume the month alternation `(Jan|Feb|…|Dec)` and return the 1-based
    month. -/
def readMonth : List Char → Option (Nat × List Char)
  | a :: b :: c :: rest =>
      match monthIndex (String.mk [a, b, c]) with
      | some m => some (m, rest)
      | none => none
  | _ => none

/-- Consume the literal tail ` +0000` ending at the end of the string
    (the regex anchor `$`). -/
def expectTail : List Char → Option Unit
  | [' ', '+', '0', '0', '0', '0'] => some ()
  | _ => none

/-- Read a whole `requestTime` string against the regex
    `^\d\x7b2\x7d/(Jan|Feb|Mar|Apr|May|Jun|Jul|Aug|Sep|Oct|Nov|Dec)/\d\x7b4\x7d:\d\x7b2\x7d:\d\x7b2\x7d:\d\x7b2\x7d \+0000$`
    and decode it as a UTC moment in seconds since the epoch.  The read
    succeeds exactly on the strings the regex accepts. -/
def decodeRTChars (l : List Char) : Option Nat :=
  (read2Digits l).bind fun p1 =>
  (expectChar '/' p1.2).bind fun l1 =>
  (readMonth l1).bind fun p2 =>
  (expectChar '/' p2.2).bind fun l2 =>
  (read4Digits l2).bind fun p3 =>
  (expectChar ':' p3.2).bind fun l3 =>
  (read2Digits l3).bind fun p4 =>
  (expectChar ':' p4.2).bind fun l4 =>
  (read2Digits l4).bind fun p5 =>
  (expectChar ':' p5.2).bind fun l5 =>
  (read2Digits l5).bind fun p6 =>
  (expectTail p6.2).bind fun _ =>
  some (daysFromCivil p3.1 p2.1 p1.1 * 86400 + p4.1 * 3600 + p5.1 * 60 + p6.1)

/-- The regex of the specification, §8: a string matches iff the
    `decodeRTChars` read of it succeeds. -/
def matchesRequestTimeRegex (s : String) : Bool := (decodeRTChars s.data).isSome

/-- String-level UTC decoding of a `requestTime` value (the specification,
    §8: "decoding it as UTC"). -/
def decodeRequestTime (s : String) : Option Nat := decodeRTChars s.data

/-! ### Event encoding (`server.ts` lines 268-334, `src/types.ts`) -/

inductive EventType where
  | CONNECT
  | DISCONNECT
  | MESSAGE
deriving DecidableEq, Repr

structure DisconnectOptions where
  disconnectStatusCode : Nat
  disconnectReason : String
deriving DecidableEq, Repr

/-- WebSocket ready states of the `ws` library: 0 CONNECTING, 1 OPEN,
    2 CLOSING, 3 CLOSED. -/
def WS_OPEN : Nat := 1

/-- `Connection` (`src/types.ts`), together with the ready state of the owned
    socket.  Timestamps are milliseconds since the epoch. -/
structure Connection where
  id : String
  readyState : Nat
  connectedAt : Nat
  lastActivityAt : Nat
  queryParams : List (String × String)
  headers : List (String × String)
  sourceIp : String
  userAgent : String
deriving DecidableEq, Repr

structure AWSIdentity where
  sourceIp : String
  userAgent : String
deriving DecidableEq, Repr

/-- `AWSRequestContext` (`src/types.ts`).  `messageDirection` is typed as the
    literal `'IN'`. -/
structure AWSRequestContext where
  routeKey : String
  eventType : EventType
  extendedRequestId : String
  requestTime : String
  messageDirection : String
  stage : String
  connectedAt : Nat
  requestTimeEpoch : Nat
  identity : AWSIdentity
  requestId : String
  domainName : String
  connectionId : String
  apiId : String
  messageId : Option String
  disconnectStatusCode : Option Nat
  disconnectReason : Option String
deriving DecidableEq, Repr

structure AWSWebSocketEvent where
  requestContext : AWSRequestContext
  headers : List (String × String)
  multiValueHeaders : List (String × List String)
  queryStringParameters : Option (List (String × String))
  body : Option String
  isBase64Encoded : Bool
deriving DecidableEq, Repr

/-- `buildRequestContext` (`server.ts` lines 268-308).  `now` is the value of
    the internal `new Date()`, `requestId` the generated UUID and
    `freshMessageId` the id `generateMessageId()` would produce; the callers
    never pass a `messageId` option, so `MESSAGE` contexts always receive the
    fresh one. -/
def buildRequestContext (cfg : GatewayConfig) (conn : Connection) (routeKey : String)
    (eventType : EventType) (opts : Option DisconnectOptions) (now : Nat)
    (requestId freshMessageId : String) : AWSRequestContext :=
  { routeKey := routeKey
    eventType := eventType
    extendedRequestId := requestId
    requestTime := formatRequestTime now
    messageDirection := "IN"
    stage := cfg.stage
    connectedAt := conn.connectedAt
    requestTimeEpoch := now
    identity := ⟨conn.sourceIp, conn.userAgent⟩
    requestId := requestId
    domainName := cfg.domainName
    connectionId := conn.id
    apiId := cfg.apiId
    messageId := match eventType with | .MESSAGE => some freshMessageId | _ => none
    disconnectStatusCode :=
      match eventType, opts with
      | .DISCONNECT, some o => some o.disconnectStatusCode
      | _, _ => none
    disconnectReason :=
      match eventType, opts with
      | .DISCONNECT, some o => some o.disconnectReason
      | _, _ => none }

/-- `buildMultiValueHeaders` (`server.ts` lines 310-316). -/
def buildMultiValueHeaders (headers : List (String × String)) : List (String × List String) :=
  headers.map (fun e => (e.1, [e.2]))

/-- `buildLambdaEvent` (`server.ts` lines 318-334). -/
def buildLambdaEvent (cfg : GatewayConfig) (conn : Connection) (routeKey : String)
    (eventType : EventType) (body : Option String) (opts : Option DisconnectOptions)
    (now : Nat) (requestId freshMessageId : String) : AWSWebSocketEvent :=
  { requestContext := buildRequestContext cfg conn routeKey eventType opts now requestId freshMessageId
    headers := conn.headers
    multiValueHeaders := buildMultiValueHeaders conn.headers
    queryStringParameters := if conn.queryParams.length > 0 then some conn.queryParams else none
    body := body
    isBase64Encoded := false }

/-- `getEventType` (`server.ts` lines 405-414). -/
def getEventType (routeKey : String) : EventType :=
  if routeKey = "$connect" then .CONNECT
  else if routeKey = "$disconnect" then .DISCONNECT
  else .MESSAGE

/-! ### The outbound backend call (`server.ts` lines 363-403) -/

/-- The HTTP POST an invocation of `callBackend` performs: `fetch` is called
    with `uri` as the full request URL, `headers`, and `JSON.stringify`
    applied to `event` as the request body. -/
structure OutRequest where
  uri : String
  headers : List (String × String)
  event : AWSWebSocketEvent
deriving DecidableEq, Repr

/-- The request-building part of `callBackend` (`server.ts` lines 363-403):
    resolve the integration (`this.config.routes[routeKey] ||
    this.config.routes['$default']`, two JS property reads combined by
    truthiness, hence `propRead`), then build the Lambda event and POST it
    as JSON.  The result is the HTTP POST actually performed, if any:

    * an own route entry wins (directly or through the `$default` fallback)
      — the event is POSTed to its `uri`;
    * a truthy *inherited* read wins (the route key — or, were the own entry
      for `$default` ever shadowed this way, the fallback — names an
      `Object.prototype` member such as `toString`): the `||` does not fall
      through, `integration.uri` is `undefined`, and `fetch(undefined, …)`
      throws inside the `try`, caught at lines 399-402 — `false` is
      returned and no request leaves the process (`none`);
    * both reads falsy: the guard at lines 374-377 logs a warning and
      returns `false` before building the event (`none`).

    Note the function never consults `cfg.integrationMode`, faithfully to
    the source. -/
def callBackendRequest (cfg : GatewayConfig) (routeKey : String) (conn : Connection)
    (body : Option String) (opts : Option DisconnectOptions) (now : Nat)
    (requestId freshMessageId : String) : Option OutRequest :=
  let eventType := getEventType routeKey
  let p := propRead cfg.routes routeKey
  match (if isTruthyProp p then p else propRead cfg.routes "$default") with
  | .integ integ =>
      some { uri := integ.uri
             headers := [("Content-Type", "application/json")]
             event := buildLambdaEvent cfg conn routeKey eventType body opts now requestId freshMessageId }
  | .inherited => none
  | .absent => none

/-! ### Timeout management (`server.ts` lines 420-460)

`setTimeout` handles become `TimerEntry` values recording when and for how
long the timer was scheduled; `clearTimeout` plus `Map.delete`/`Map.set`
become erasure/replacement in the timer table. -/

structure TimerEntry where
  scheduledAt : Nat
  durationMs : Nat
deriving DecidableEq, Repr

/-- The idle-timer key `` `${connectionId}:idle` ``. -/
def idleKey (connectionId : String) : String := connectionId ++ ":idle"

/-- The hard-timer key `` `${connectionId}:hard` ``. -/
def hardKey (connectionId : String) : String := connectionId ++ ":hard"

/-- `resetIdleTimeout` (`server.ts` lines 435-451): cancel the existing idle
    timer, if any, and schedule a fresh one of the full `idleTimeout`
    duration. -/
def resetIdleTimeout (cfg : GatewayConfig) (connectionId : String) (now : Nat)
    (timers : List (String × TimerEntry)) : List (String × TimerEntry) :=
  aset (idleKey connectionId) ⟨now, cfg.idleTimeout * 1000⟩ timers

/-- `setupTimeouts` (`server.ts` lines 420-433): called once at session
    creation; schedules the idle timer via `resetIdleTimeout` and the hard
    timer for `hardTimeout` seconds. -/
def setupTimeouts (cfg : GatewayConfig) (connectionId : String) (now : Nat)
    (timers : List (String × TimerEntry)) : List (String × TimerEntry) :=
  aset (hardKey connectionId) ⟨now, cfg.hardTimeout * 1000⟩
    (resetIdleTimeout cfg connectionId now timers)

/-- `clearTimeouts` (`server.ts` lines 453-460). -/
def clearTimeouts (connectionId : String)
    (timers : List (String × TimerEntry)) : List (String × TimerEntry) :=
  aerase (idleKey connectionId) (aerase (hardKey connectionId) timers)

/-! ### Gateway state -/

/-- The mutable state of an `AWSWebSocketGateway` instance, together with its
    observable outputs.  `live` is the key set of the `connections` map;
    `registry` holds every `Connection` object ever created, because the
    `ws` event handlers close over the object rather than re-reading the map
    (`live` membership plus `registry` lookup models `connections.get`).
    `dispatchLog` records the backend POSTs in the order they were initiated
    and `sentFrames` the frames written to client sockets. -/
structure GatewayState where
  live : List String
  registry : List (String × Connection)
  timeoutTimers : List (String × TimerEntry)
  dispatchLog : List OutRequest
  sentFrames : List (String × String)
deriving DecidableEq, Repr

def initialState : GatewayState := ⟨[], [], [], [], []⟩

/-- `this.connections.get(connectionId)`: the map and the handler closures
    alias the same `Connection` object, so a live id resolves to the registry
    entry. -/
def connGet (st : GatewayState) (connectionId : String) : Option Connection :=
  if st.live.contains connectionId then alookup connectionId st.registry else none

/-! ### The management API (`server.ts` lines 42-140) -/

/-- Bodies of the management HTTP responses.  `gone id` stands for the JSON
    text `\x7b"message":"Gone","connectionId":"<id>"\x7d`; `connInfo` for the
    GET payload whose `connectedAt`/`lastActiveAt` carry the ISO-8601
    renderings of the two stored instants; `health` for the health-check
    JSON; `notFound`/`methodNotAllowed` for the corresponding JSON messages;
    `empty` for an empty response body. -/
inductive MgmtBody where
  | gone (connectionId : String)
  | connInfo (connectionId : String) (connectedAt lastActiveAt : Nat)
  | health (connections : Nat)
  | notFound
  | methodNotAllowed
  | empty
deriving DecidableEq, Repr

structure HttpResponse where
  status : Nat
  body : MgmtBody
deriving DecidableEq, Repr

/-- `handleManagementApi` (`server.ts` lines 73-140).  `now` is the wall
    clock at which a POST body finishes arriving.  Returns the response and
    the successor state: a successful DELETE initiates the close handshake
    (the socket leaves the OPEN state), a successful POST writes the frame
    and bumps `lastActivityAt` — and touches no timer. -/
def handleManagementApi (st : GatewayState) (method connectionId reqBody : String)
    (now : Nat) : HttpResponse × GatewayState :=
  let connection := connGet st connectionId
  if method = "GET" then
    match connection with
    | some c => (⟨200, .connInfo connectionId c.connectedAt c.lastActivityAt⟩, st)
    | none => (⟨410, .gone connectionId⟩, st)
  else if method = "DELETE" then
    match connection with
    | some c =>
        if c.readyState = WS_OPEN then
          (⟨204, .empty⟩,
            { st with registry := aset connectionId { c with readyState := 2 } st.registry })
        else (⟨410, .gone connectionId⟩, st)
    | none => (⟨410, .gone connectionId⟩, st)
  else if method = "POST" then
    match connection with
    | some c =>
        if c.readyState = WS_OPEN then
          (⟨200, .empty⟩,
            { st with
                sentFrames := st.sentFrames ++ [(connectionId, reqBody)]
                registry := aset connectionId { c with lastActivityAt := now } st.registry })
        else (⟨410, .gone connectionId⟩, st)
    | none => (⟨410, .gone connectionId⟩, st)
  else (⟨405, .methodNotAllowed⟩, st)

/-! ### `decodeURIComponent` (external builtin used at `server.ts` line 63) -/

def hexDigit (c : Char) : Option Nat :=
  if c.isDigit then some (c.toNat - 48)
  else if 65 ≤ c.toNat ∧ c.toNat ≤ 70 then some (c.toNat - 55)
  else if 97 ≤ c.toNat ∧ c.toNat ≤ 102 then some (c.toNat - 87)
  else none

/-- First phase of `decodeURIComponent`: replace each `%XX` escape by its
    byte; a `%` not followed by two hex digits raises `URIError`. -/
def pctTokens : List Char → Option (List (Char ⊕ Nat))
  | [] => some []
  | '%' :: c1 :: c2 :: rest =>
      match hexDigit c1, hexDigit c2 with
      | some h1, some h2 => (pctTokens rest).map (fun ts => .inr (16 * h1 + h2) :: ts)
      | _, _ => none
  | '%' :: _ => none
  | c :: rest => (pctTokens rest).map (fun ts => .inl c :: ts)

/-- Strict UTF-8 decoding of one maximal run of escape bytes; malformed,
    overlong, surrogate or out-of-range sequences raise `URIError`. -/
def utf8Run : List Nat → Option (List Char)
  | [] => some []
  | b :: rest =>
      if b ≤ 127 then (utf8Run rest).map (fun cs => Char.ofNat b :: cs)
      else if 194 ≤ b ∧ b ≤ 223 then
        match rest with
        | b2 :: rest2 =>
            if 128 ≤ b2 ∧ b2 ≤ 191 then
              (utf8Run rest2).map (fun cs => Char.ofNat ((b - 192) * 64 + (b2 - 128)) :: cs)
            else none
        | [] => none
      else if 224 ≤ b ∧ b ≤ 239 then
        match rest with
        | b2 :: b3 :: rest2 =>
            let cp := (b - 224) * 4096 + (b2 - 128) * 64 + (b3 - 128)
            if (128 ≤ b2 ∧ b2 ≤ 191) ∧ (128 ≤ b3 ∧ b3 ≤ 191) ∧ 2048 ≤ cp ∧
                ¬(55296 ≤ cp ∧ cp ≤ 57343) then
              (utf8Run rest2).map (fun cs => Char.ofNat cp :: cs)
            else none
        | _ => none
      else if 240 ≤ b ∧ b ≤ 244 then
        match rest with
        | b2 :: b3 :: b4 :: rest2 =>
            let cp := (b - 240) * 262144 + (b2 - 128) * 4096 + (b3 - 128) * 64 + (b4 - 128)
            if (128 ≤ b2 ∧ b2 ≤ 191) ∧ (128 ≤ b3 ∧ b3 ≤ 191) ∧ (128 ≤ b4 ∧ b4 ≤ 191) ∧
                65536 ≤ cp ∧ cp ≤ 1114111 then
              (utf8Run rest2).map (fun cs => Char.ofNat cp :: cs)
            else none
        | _ => none
      else none

/-- Split a token list into its leading run of escape bytes and the rest. -/
def takeByteRun : List (Char ⊕ Nat) → List Nat × List (Char ⊕ Nat)
  | .inr b :: rest => let p := takeByteRun rest; (b :: p.1, p.2)
  | l => ([], l)

theorem takeByteRun_length_le (l : List (Char ⊕ Nat)) : (takeByteRun l).2.length ≤ l.length := by
  induction l with
  | nil => simp [takeByteRun]
  | cons x rest ih =>
      match x with
      | .inl c => simp [takeByteRun]
      | .inr b => simpa [takeByteRun] using Nat.le_succ_of_le ih

/-- Fuel-indexed worker for `detokenize`; the fuel always exceeds the list
    length on the actual calls, so the exhaustion branch is never reached. -/
def detokenizeCore : Nat → List (Char ⊕ Nat) → Option (List Char)
  | _, [] => some []
  | fuel + 1, .inl c :: rest => (detokenizeCore fuel rest).map (fun cs => c :: cs)
  | fuel + 1, .inr b :: rest =>
      match utf8Run (b :: (takeByteRun rest).1) with
      | some cs => (detokenizeCore fuel (takeByteRun rest).2).map (fun cs2 => cs ++ cs2)
      | none => none
  | 0, _ :: _ => none

/-- Second phase of `decodeURIComponent`: literal characters pass through and
    each maximal run of escape bytes is UTF-8 decoded. -/
def detokenize (l : List (Char ⊕ Nat)) : Option (List Char) :=
  detokenizeCore (l.length + 1) l

/-- The `decodeURIComponent` builtin: `none` models a thrown `URIError`. -/
def decodeURIComponent (s : String) : Option String :=
  match pctTokens s.data with
  | none => none
  | some toks => (detokenize toks).map (fun cs => String.mk cs)

/-- The exception a management request can raise out of the HTTP handler. -/
inductive JsError where
  | uriError
deriving DecidableEq, Repr

/-- Match of the literal prefix `/@connections/` of the management-path
    regex `^\/@connections\/(.+)$`. -/
def connectionsPathRest : List Char → Option (List Char)
  | '/' :: '@' :: 'c' :: 'o' :: 'n' :: 'n' :: 'e' :: 'c' :: 't' :: 'i' :: 'o' :: 'n' :: 's' ::
      '/' :: rest => some rest
  | _ => none

/-- `handleHttpRequest` (`server.ts` lines 42-71) on an already-parsed URL
    path.  The capture of `^\/@connections\/(.+)$` must be non-empty and free
    of line terminators (a JS `.`).  The `decodeURIComponent` call is not
    guarded by any `try`, so a malformed escape in the `{id}` segment
    propagates a `URIError` out of the handler and no response is produced. -/
def handleHttpRequest (st : GatewayState) (method pathname reqBody : String)
    (now : Nat) : Except JsError (HttpResponse × GatewayState) :=
  if method = "GET" ∧ pathname = "/health" then
    .ok (⟨200, .health st.live.length⟩, st)
  else
    match connectionsPathRest pathname.data with
    | some rest =>
        if rest.isEmpty || rest.any (fun c => c == '\n' || c == '\r') then
          .ok (⟨404, .notFound⟩, st)
        else
          match decodeURIComponent (String.mk rest) with
          | some connectionId => .ok (handleManagementApi st method connectionId reqBody now)
          | none => .error .uriError
    | none => .ok (⟨404, .notFound⟩, st)

/-! ### The session life cycle as a state machine (`server.ts` lines 146-229, 503-520) -/

/-- The observable JavaScript events that drive the gateway:

* `accept`: the synchronous part of `handleConnection` — snapshot the request,
  insert the session, start the timers, initiate the `$connect` POST.
* `connectResult`: the `.then` callback of the `$connect` dispatch; on
  failure the server calls `ws.close(1011, 'Backend connect failed')`.
* `message`: one inbound frame (`parsed` is the external `JSON.parse`
  outcome on its text).
* `closeEvt`: the socket close event with the observed code and reason; the
  `ws` library fires it exactly once per socket, whichever side initiated
  the closure.
* `mgmt`: a management API request resolved to a connection id.
* `stop`: the synchronous part of `stop()`. -/
inductive GEvent where
  | accept (id : String) (queryParams headers : List (String × String))
      (sourceIp userAgent : String) (now : Nat) (requestId freshMessageId : String)
  | connectResult (id : String) (success : Bool)
  | message (id : String) (text : String) (parsed : Option Json) (now : Nat)
      (requestId freshMessageId : String)
  | closeEvt (id : String) (code : Nat) (reason : String) (now : Nat)
      (requestId freshMessageId : String)
  | mgmt (method connectionId reqBody : String) (now : Nat)
  | stop

/-- One step of the gateway (`server.ts`: `handleConnection` lines 146-229,
    the `stop` method lines 503-520, and `handleManagementApi`). -/
def stepEvent (cfg : GatewayConfig) (st : GatewayState) : GEvent → GatewayState
  | .accept id qp hs ip ua now reqId mid =>
      let conn : Connection := ⟨id, WS_OPEN, now, now, qp, hs, ip, ua⟩
      let st1 := { st with
        live := id :: st.live.erase id
        registry := aset id conn st.registry
        timeoutTimers := setupTimeouts cfg id now st.timeoutTimers }
      match callBackendRequest cfg "$connect" conn none none now reqId mid with
      | some req => { st1 with dispatchLog := st1.dispatchLog ++ [req] }
      | none => st1
  | .connectResult id success =>
      if success then st
      else
        match alookup id st.registry with
        | some c =>
            if c.readyState = WS_OPEN then
              { st with registry := aset id { c with readyState := 2 } st.registry }
            else st
        | none => st
  | .message id text parsed now reqId mid =>
      match alookup id st.registry with
      | none => st
      | some c =>
          let c2 := { c with lastActivityAt := now }
          let st1 := { st with
            registry := aset id c2 st.registry
            timeoutTimers := resetIdleTimeout cfg id now st.timeoutTimers }
          match callBackendRequest cfg (selectRoute cfg parsed) c2 (some text) none now reqId mid with
          | some req => { st1 with dispatchLog := st1.dispatchLog ++ [req] }
          | none => st1
  | .closeEvt id code reason now reqId mid =>
      match alookup id st.registry with
      | none => st
      | some c =>
          let c2 := { c with readyState := 3 }
          let st1 := { st with registry := aset id c2 st.registry }
          let st2 :=
            match callBackendRequest cfg "$disconnect" c2 none (some ⟨code, reason⟩) now reqId mid with
            | some req => { st1 with dispatchLog := st1.dispatchLog ++ [req] }
            | none => st1
          { st2 with
              timeoutTimers := clearTimeouts id st2.timeoutTimers
              live := st2.live.erase id }
  | .mgmt method connectionId reqBody now =>
      (handleManagementApi st method connectionId reqBody now).2
  | .stop =>
      { st with
          live := []
          registry := st.registry.map (fun e =>
            if st.live.contains e.1 ∧ e.2.readyState = WS_OPEN then
              (e.1, { e.2 with readyState := 2 })
            else e)
          timeoutTimers := [] }

/-- Run the gateway from its initial state over a trace of events. -/
def runTrace (cfg : GatewayConfig) (events : List GEvent) : GatewayState :=
  events.foldl (stepEvent cfg) initialState

/-! ### Arithmetic facts about the civil-calendar conversion -/

theorem yoe_facts (doe : Nat) (h : doe < 146097) :
    yoeOfDoe doe ≤ 399 ∧
    365 * yoeOfDoe doe + yoeOfDoe doe / 4 - yoeOfDoe doe / 100 ≤ doe ∧
    doyOfDoe doe ≤ 365 := by
  have hle : yoeOfDoe doe ≤ 399 := by unfold yoeOfDoe; omega
  have hdef : yoeOfDoe doe = (doe - doe / 1460 + doe / 36524 - doe / 146096) / 365 := rfl
  have hdoy : doyOfDoe doe =
      doe - (365 * yoeOfDoe doe + yoeOfDoe doe / 4 - yoeOfDoe doe / 100) := rfl
  refine ⟨hle, ?_⟩
  generalize hy : yoeOfDoe doe = yoe at hle hdef hdoy
  have hc : yoe / 100 = 0 ∨ yoe / 100 = 1 ∨ yoe / 100 = 2 ∨ yoe / 100 = 3 := by omega
  rcases hc with hc | hc | hc | hc <;> omega

/-- Characterization of `civilFromDays` by the era / year-of-era /
    day-of-year decomposition. -/
theorem civilFromDays_spec (z : Nat) :
    ∃ era doe yoe doy mp,
      146097 * era + doe = z + 719468 ∧ doe < 146097 ∧ 4 ≤ era ∧
      yoe ≤ 399 ∧
      365 * yoe + yoe / 4 - yoe / 100 + doy = doe ∧ doy ≤ 365 ∧
      mp = (5 * doy + 2) / 153 ∧ mp ≤ 11 ∧
      (153 * mp + 2) / 5 ≤ doy ∧ doy - (153 * mp + 2) / 5 ≤ 30 ∧
      civilFromDays z =
        ((if mp < 10 then yoe + era * 400 else yoe + era * 400 + 1),
         (if mp < 10 then mp + 3 else mp - 9),
         doy - (153 * mp + 2) / 5 + 1) := by
  have hdoe : (z + 719468) % 146097 < 146097 := Nat.mod_lt _ (by norm_num)
  have h1 := yoe_facts ((z + 719468) % 146097) hdoe
  have hdoydef : doyOfDoe ((z + 719468) % 146097) =
      (z + 719468) % 146097 -
        (365 * yoeOfDoe ((z + 719468) % 146097) + yoeOfDoe ((z + 719468) % 146097) / 4 -
          yoeOfDoe ((z + 719468) % 146097) / 100) := rfl
  have hmpdef : mpOfDoy (doyOfDoe ((z + 719468) % 146097)) =
      (5 * doyOfDoe ((z + 719468) % 146097) + 2) / 153 := rfl
  refine ⟨(z + 719468) / 146097, (z + 719468) % 146097, yoeOfDoe ((z + 719468) % 146097),
    doyOfDoe ((z + 719468) % 146097), mpOfDoy (doyOfDoe ((z + 719468) % 146097)),
    by omega, hdoe, by omega, h1.1, by omega, h1.2.2, hmpdef, by omega, by omega, by omega, ?_⟩
  unfold civilFromDays
  dsimp only
  by_cases hmp : mpOfDoy (doyOfDoe ((z + 719468) % 146097)) < 10
  · rw [if_pos hmp, if_pos hmp,
      if_neg (show ¬(mpOfDoy (doyOfDoe ((z + 719468) % 146097)) + 3 ≤ 2) by omega)]
  · rw [if_neg hmp, if_neg hmp,
      if_pos (show mpOfDoy (doyOfDoe ((z + 719468) % 146097)) - 9 ≤ 2 by
        have h2 := hmpdef
        have h3 : doyOfDoe ((z + 719468) % 146097) ≤ 365 := h1.2.2
        omega)]

theorem civil_month_day_bounds (z : Nat) :
    1 ≤ (civilFromDays z).2.1 ∧ (civilFromDays z).2.1 ≤ 12 ∧
    1 ≤ (civilFromDays z).2.2 ∧ (civilFromDays z).2.2 ≤ 31 ∧
    1600 ≤ (civilFromDays z).1 := by
  obtain ⟨era, doe, yoe, doy, mp, h⟩ := civilFromDays_spec z
  rw [h.2.2.2.2.2.2.2.2.2.2]
  by_cases hmp : mp < 10 <;> simp only [if_pos, if_neg, hmp, if_true, if_false] <;> omega

theorem civil_year_hi (z : Nat) (hz : z ≤ 2932896) : (civilFromDays z).1 ≤ 9999 := by
  obtain ⟨era, doe, yoe, doy, mp, h⟩ := civilFromDays_spec z
  rw [h.2.2.2.2.2.2.2.2.2.2]
  by_cases hmp : mp < 10 <;> simp only [if_pos, if_neg, hmp, if_true, if_false] <;> omega

/-- Re-encoding the civil date of a day number recovers the day number: the
    decoded `requestTime` denotes the same UTC day it was formatted from. -/
theorem civil_roundtrip (z : Nat) :
    daysFromCivil (civilFromDays z).1 (civilFromDays z).2.1 (civilFromDays z).2.2 = z := by
  obtain ⟨era, doe, yoe, doy, mp, h⟩ := civilFromDays_spec z
  rw [h.2.2.2.2.2.2.2.2.2.2]
  have hyeradiv : (yoe + era * 400) / 400 = era := by omega
  have hyeramod : (yoe + era * 400) % 400 = yoe := by omega
  by_cases hmp : mp < 10
  · simp only [if_pos hmp]
    unfold daysFromCivil
    dsimp only
    rw [if_neg (by omega), if_pos (by omega), hyeradiv, hyeramod]
    omega
  · simp only [if_neg hmp]
    unfold daysFromCivil
    dsimp only
    rw [if_pos (by omega), if_neg (by omega)]
    have he : yoe + era * 400 + 1 - 1 = yoe + era * 400 := by omega
    rw [he, hyeradiv, hyeramod]
    omega

/-! ### Digit and formatting lemmas -/

theorem digitCh_isDigit (d : Nat) (h : d < 10) : (digitCh d).isDigit = true := by
  interval_cases d <;> decide

theorem digitVal_digitCh (d : Nat) (h : d < 10) : digitVal (digitCh d) = d := by
  interval_cases d <;> decide

theorem natToString_data (n : Nat) : (natToString n).data = natToStringCore (n + 1) n := rfl

theorem natToStringCore_small (fuel n : Nat) (h : n < 10) :
    natToStringCore (fuel + 1) n = [digitCh n] := by
  simp [natToStringCore, h]

theorem natToStringCore_big (fuel n : Nat) (h : ¬n < 10) :
    natToStringCore (fuel + 1) n = natToStringCore fuel (n / 10) ++ [digitCh (n % 10)] := by
  simp [natToStringCore, h]

theorem natToStringCore_two (fuel n : Nat) (h1 : 10 ≤ n) (h2 : n < 100) (hf : 1 ≤ fuel) :
    natToStringCore (fuel + 1) n = [digitCh (n / 10), digitCh (n % 10)] := by
  rw [natToStringCore_big fuel n (by omega)]
  obtain ⟨f2, rfl⟩ : ∃ f2, fuel = f2 + 1 := ⟨fuel - 1, by omega⟩
  rw [natToStringCore_small f2 (n / 10) (by omega)]
  rfl

theorem natToStringCore_three (fuel n : Nat) (h1 : 100 ≤ n) (h2 : n < 1000) (hf : 2 ≤ fuel) :
    natToStringCore (fuel + 1) n =
      [digitCh (n / 100), digitCh (n / 10 % 10), digitCh (n % 10)] := by
  rw [natToStringCore_big fuel n (by omega)]
  obtain ⟨f2, rfl⟩ : ∃ f2, fuel = f2 + 1 := ⟨fuel - 1, by omega⟩
  rw [natToStringCore_two f2 (n / 10) (by omega) (by omega) (by omega)]
  have e1 : n / 10 / 10 = n / 100 := by omega
  rw [e1]
  rfl

theorem natToStringCore_four (fuel n : Nat) (h1 : 1000 ≤ n) (h2 : n < 10000) (hf : 3 ≤ fuel) :
    natToStringCore (fuel + 1) n =
      [digitCh (n / 1000), digitCh (n / 100 % 10), digitCh (n / 10 % 10), digitCh (n % 10)] := by
  rw [natToStringCore_big fuel n (by omega)]
  obtain ⟨f2, rfl⟩ : ∃ f2, fuel = f2 + 1 := ⟨fuel - 1, by omega⟩
  rw [natToStringCore_three f2 (n / 10) (by omega) (by omega) (by omega)]
  have e1 : n / 10 / 100 = n / 1000 := by omega
  have e2 : n / 10 / 10 % 10 = n / 100 % 10 := by omega
  rw [e1, e2]
  rfl

theorem natToString_data_four (n : Nat) (h1 : 1000 ≤ n) (h2 : n < 10000) :
    (natToString n).data =
      [digitCh (n / 1000), digitCh (n / 100 % 10), digitCh (n / 10 % 10), digitCh (n % 10)] := by
  rw [natToString_data]
  obtain ⟨f, rfl⟩ : ∃ f, n = f + 1 := ⟨n - 1, by omega⟩
  exact natToStringCore_four (f + 1) (f + 1) h1 h2 (by omega)

theorem pad2_data (n : Nat) (h : n < 100) :
    (pad2 n).data = [digitCh (n / 10), digitCh (n % 10)] := by
  unfold pad2
  by_cases h10 : n < 10
  · rw [if_pos h10, String.data_append, natToString_data,
      natToStringCore_small n n h10]
    have hz : n / 10 = 0 := by omega
    have hm : n % 10 = n := by omega
    have h0 : ("0" : String).data = [digitCh 0] := by decide
    rw [hz, hm, h0]
    rfl
  · rw [if_neg h10, natToString_data]
    obtain ⟨f, rfl⟩ : ∃ f, n = f + 1 := ⟨n - 1, by omega⟩
    exact natToStringCore_two (f + 1) (f + 1) (by omega) (by omega) (by omega)

theorem month_roundtrip (mo : Nat) (h1 : 1 ≤ mo) (h2 : mo ≤ 12) :
    ∃ a b c, (monthsArr.getD (mo - 1) "").data = [a, b, c] ∧
      monthIndex (String.mk [a, b, c]) = some mo := by
  interval_cases mo <;> exact ⟨_, _, _, rfl, by decide⟩

theorem read2Digits_digits (x y : Nat) (hx : x < 10) (hy : y < 10) (rest : List Char) :
    read2Digits (digitCh x :: digitCh y :: rest) = some (x * 10 + y, rest) := by
  simp [read2Digits, digitCh_isDigit x hx, digitCh_isDigit y hy,
    digitVal_digitCh x hx, digitVal_digitCh y hy]

theorem read4Digits_digits (x y z w : Nat) (hx : x < 10) (hy : y < 10) (hz : z < 10)
    (hw : w < 10) (rest : List Char) :
    read4Digits (digitCh x :: digitCh y :: digitCh z :: digitCh w :: rest) =
      some (x * 1000 + y * 100 + z * 10 + w, rest) := by
  simp [read4Digits, digitCh_isDigit x hx, digitCh_isDigit y hy, digitCh_isDigit z hz,
    digitCh_isDigit w hw, digitVal_digitCh x hx, digitVal_digitCh y hy,
    digitVal_digitCh z hz, digitVal_digitCh w hw]

theorem expectChar_cons (c : Char) (rest : List Char) : expectChar c (c :: rest) = some rest := by
  simp [expectChar]

theorem readMonth_cons (a b c : Char) (m : Nat)
    (h : monthIndex (String.mk [a, b, c]) = some m) (rest : List Char) :
    readMonth (a :: b :: c :: rest) = some (m, rest) := by
  simp [readMonth, h]

/-- The formatted `DD/Mon/YYYY:HH:MM:SS +0000` string matches the AWS
    `requestTime` regex and decodes back to its UTC second. -/
theorem format_parse (dd mo yy hh mi ss : Nat)
    (hdd : dd < 100) (hmo1 : 1 ≤ mo) (hmo2 : mo ≤ 12)
    (hy1 : 1000 ≤ yy) (hy2 : yy < 10000)
    (hhh : hh < 100) (hmi : mi < 100) (hss : ss < 100) :
    matchesRequestTimeRegex
        (pad2 dd ++ "/" ++ (monthsArr.getD (mo - 1) "") ++ "/" ++ natToString yy ++ ":" ++
          pad2 hh ++ ":" ++ pad2 mi ++ ":" ++ pad2 ss ++ " +0000") = true ∧
    decodeRequestTime
        (pad2 dd ++ "/" ++ (monthsArr.getD (mo - 1) "") ++ "/" ++ natToString yy ++ ":" ++
          pad2 hh ++ ":" ++ pad2 mi ++ ":" ++ pad2 ss ++ " +0000") =
      some (daysFromCivil yy mo dd * 86400 + hh * 3600 + mi * 60 + ss) := by
  obtain ⟨a, b, c, hmon, hmonidx⟩ := month_roundtrip mo hmo1 hmo2
  have hslash : ("/" : String).data = ['/'] := rfl
  have hcolon : (":" : String).data = [':'] := rfl
  have hzone : (" +0000" : String).data = [' ', '+', '0', '0', '0', '0'] := rfl
  have hdec : decodeRequestTime
      (pad2 dd ++ "/" ++ (monthsArr.getD (mo - 1) "") ++ "/" ++ natToString yy ++ ":" ++
        pad2 hh ++ ":" ++ pad2 mi ++ ":" ++ pad2 ss ++ " +0000") =
      some (daysFromCivil yy mo dd * 86400 + hh * 3600 + mi * 60 + ss) := by
    rw [decodeRequestTime]
    simp only [String.data_append, pad2_data dd hdd, pad2_data hh hhh, pad2_data mi hmi,
      pad2_data ss hss, natToString_data_four yy hy1 hy2, hmon, hslash, hcolon, hzone,
      List.cons_append, List.nil_append]
    rw [decodeRTChars]
    simp only [read2Digits_digits (dd / 10) (dd % 10) (by omega) (by omega),
      read2Digits_digits (hh / 10) (hh % 10) (by omega) (by omega),
      read2Digits_digits (mi / 10) (mi % 10) (by omega) (by omega),
      read2Digits_digits (ss / 10) (ss % 10) (by omega) (by omega),
      read4Digits_digits (yy / 1000) (yy / 100 % 10) (yy / 10 % 10) (yy % 10)
        (by omega) (by omega) (by omega) (by omega),
      expectChar_cons, readMonth_cons a b c mo hmonidx, Option.some_bind]
    simp only [expectTail, Option.some_bind]
    have e1 : dd / 10 * 10 + dd % 10 = dd := by omega
    have e2 : yy / 1000 * 1000 + yy / 100 % 10 * 100 + yy / 10 % 10 * 10 + yy % 10 = yy := by
      omega
    have e3 : hh / 10 * 10 + hh % 10 = hh := by omega
    have e4 : mi / 10 * 10 + mi % 10 = mi := by omega
    have e5 : ss / 10 * 10 + ss % 10 = ss := by omega
    rw [e1, e2, e3, e4, e5]
  refine ⟨?_, hdec⟩
  have hm : matchesRequestTimeRegex
      (pad2 dd ++ "/" ++ (monthsArr.getD (mo - 1) "") ++ "/" ++ natToString yy ++ ":" ++
        pad2 hh ++ ":" ++ pad2 mi ++ ":" ++ pad2 ss ++ " +0000") =
      (decodeRequestTime
        (pad2 dd ++ "/" ++ (monthsArr.getD (mo - 1) "") ++ "/" ++ natToString yy ++ ":" ++
          pad2 hh ++ ":" ++ pad2 mi ++ ":" ++ pad2 ss ++ " +0000")).isSome := rfl
  rw [hm, hdec]
  rfl

/-- Assembled statement about `formatRequestTime` for every clock value up to
    the year-10000 boundary. -/
theorem formatRequestTime_spec (t : Nat) (ht : t < 253402300800000) :
    matchesRequestTimeRegex (formatRequestTime t) = true ∧
    decodeRequestTime (formatRequestTime t) = some (t / 1000) ∧
    t / 1000 * 1000 ≤ t ∧ t ≤ t / 1000 * 1000 + 2000 := by
  have hb := civil_month_day_bounds (t / 86400000)
  have hhi := civil_year_hi (t / 86400000) (by omega)
  have hrt := civil_roundtrip (t / 86400000)
  have hfmt : formatRequestTime t =
      pad2 ((civilFromDays (t / 86400000)).2.2) ++ "/" ++
        (monthsArr.getD ((civilFromDays (t / 86400000)).2.1 - 1) "") ++ "/" ++
        natToString ((civilFromDays (t / 86400000)).1) ++ ":" ++
        pad2 (t / 3600000 % 24) ++ ":" ++ pad2 (t / 60000 % 60) ++ ":" ++
        pad2 (t / 1000 % 60) ++ " +0000" := rfl
  have hp := format_parse ((civilFromDays (t / 86400000)).2.2) ((civilFromDays (t / 86400000)).2.1)
    ((civilFromDays (t / 86400000)).1) (t / 3600000 % 24) (t / 60000 % 60) (t / 1000 % 60)
    (by omega) (by omega) (by omega) (by omega) (by omega) (by omega) (by omega) (by omega)
  rw [hfmt]
  refine ⟨hp.1, ?_, by omega, by omega⟩
  rw [hp.2, hrt]
  exact congrArg some (by omega)

/-! ### Association-list lemmas -/

theorem alookup_aerase_ne {α : Type} (k k2 : String) (l : List (String × α)) (h : k2 ≠ k) :
    alookup k2 (aerase k l) = alookup k2 l := by
  induction l with
  | nil => rfl
  | cons e rest ih =>
      by_cases he : e.1 = k
      · have : (e.1 != k) = false := by simp [he]
        simp only [aerase, List.filter] at ih ⊢
        rw [this]
        have hne : ¬(e.1 = k2) := by rw [he]; exact fun hh => h hh.symm
        simp only [alookup, if_neg hne]
        exact ih
      · have : (e.1 != k) = true := by simp [he]
        simp only [aerase, List.filter] at ih ⊢
        rw [this]
        simp only [alookup]
        by_cases h2 : e.1 = k2
        · simp [h2]
        · simp only [if_neg h2]
          exact ih

theorem alookup_aerase_self {α : Type} (k : String) (l : List (String × α)) :
    alookup k (aerase k l) = none := by
  induction l with
  | nil => rfl
  | cons e rest ih =>
      by_cases he : e.1 = k
      · have : (e.1 != k) = false := by simp [he]
        simp only [aerase, List.filter] at ih ⊢
        rw [this]
        exact ih
      · have : (e.1 != k) = true := by simp [he]
        simp only [aerase, List.filter] at ih ⊢
        rw [this]
        simp only [alookup, if_neg he]
        exact ih

theorem alookup_aset_self {α : Type} (k : String) (v : α) (l : List (String × α)) :
    alookup k (aset k v l) = some v := by
  simp [aset, alookup]

theorem alookup_aset_ne {α : Type} (k k2 : String) (v : α) (l : List (String × α)) (h : k2 ≠ k) :
    alookup k2 (aset k v l) = alookup k2 l := by
  have hne : ¬(k = k2) := fun hh => h hh.symm
  simp only [aset, alookup, if_neg hne]
  exact alookup_aerase_ne k k2 l h

theorem aerase_keys_sublist {α : Type} (k : String) (l : List (String × α)) :
    ((aerase k l).map Prod.fst).Sublist (l.map Prod.fst) :=
  (List.filter_sublist l).map Prod.fst

theorem not_mem_aerase_keys {α : Type} (k : String) (l : List (String × α)) :
    k ∉ (aerase k l).map Prod.fst := by
  induction l with
  | nil => simp [aerase]
  | cons e rest ih =>
      by_cases he : e.1 = k
      · have : (e.1 != k) = false := by simp [he]
        simp only [aerase, List.filter] at ih ⊢
        rw [this]
        exact ih
      · have : (e.1 != k) = true := by simp [he]
        simp only [aerase, List.filter] at ih ⊢
        rw [this]
        simp only [List.map, List.mem_cons]
        rintro (hk | hk)
        · exact he hk.symm
        · exact ih hk

theorem aset_keys_nodup {α : Type} (k : String) (v : α) (l : List (String × α))
    (h : (l.map Prod.fst).Nodup) : ((aset k v l).map Prod.fst).Nodup := by
  simp only [aset, List.map, List.nodup_cons]
  exact ⟨not_mem_aerase_keys k l, h.sublist (aerase_keys_sublist k l)⟩

theorem aerase_keys_nodup {α : Type} (k : String) (l : List (String × α))
    (h : (l.map Prod.fst).Nodup) : ((aerase k l).map Prod.fst).Nodup :=
  h.sublist (aerase_keys_sublist k l)

/-! ### Timer-key lemmas -/

theorem string_data_inj (s t : String) (h : s.data = t.data) : s = t := by
  cases s; cases t; exact congrArg String.mk h

theorem idleKey_inj (i c : String) (h : idleKey i = idleKey c) : i = c := by
  have hd := congrArg String.data h
  simp only [idleKey, String.data_append] at hd
  exact string_data_inj i c (by simpa [List.append_left_inj] using hd)

theorem hardKey_inj (i c : String) (h : hardKey i = hardKey c) : i = c := by
  have hd := congrArg String.data h
  simp only [hardKey, String.data_append] at hd
  exact string_data_inj i c (by simpa [List.append_left_inj] using hd)

theorem idleKey_ne_hardKey (i c : String) : idleKey i ≠ hardKey c := by
  intro h
  have hd := congrArg String.data h
  simp only [idleKey, hardKey, String.data_append] at hd
  have := congrArg List.reverse hd
  simp [List.reverse_append] at this

/-! ### Counting lemmas -/

theorem countP_or_le {α : Type} (l : List α) (p q : α → Bool) :
    l.countP (fun x => p x || q x) ≤ l.countP p + l.countP q := by
  induction l with
  | nil => simp
  | cons x rest ih =>
      by_cases hp : p x = true
      · simp [List.countP_cons, hp]
        omega
      · by_cases hq : q x = true
        · simp [List.countP_cons, hp, hq]
          omega
        · simp [List.countP_cons, hp, hq]
          omega

theorem countP_key_le_one {α : Type} (l : List (String × α)) (k : String)
    (h : (l.map Prod.fst).Nodup) : l.countP (fun e => e.1 == k) ≤ 1 := by
  induction l with
  | nil => simp
  | cons e rest ih =>
      simp only [List.map, List.nodup_cons] at h
      by_cases he : e.1 = k
      · have hnot : rest.countP (fun x => x.1 == k) = 0 := by
          rw [List.countP_eq_zero]
          intro x hx
          simp only [beq_iff_eq]
          intro hk
          have hex : e.1 = x.1 := by rw [he, hk]
          exact h.1 (hex ▸ List.mem_map_of_mem Prod.fst hx)
        simp [List.countP_cons, he, hnot]
      · have : (e.1 == k) = false := by simp [he]
        simp only [List.countP_cons, this, cond_false]
        simpa using ih h.2

/-! ### Step-level facts about the gateway -/

theorem handleManagementApi_timers (st : GatewayState) (m id b : String) (now : Nat) :
    (handleManagementApi st m id b now).2.timeoutTimers = st.timeoutTimers := by
  unfold handleManagementApi
  dsimp only
  repeat' split
  all_goals rfl

theorem stepEvent_accept_timers (cfg : GatewayConfig) (st : GatewayState)
    (id : String) (qp hs : List (String × String)) (ip ua : String) (now : Nat)
    (rid mid : String) :
    (stepEvent cfg st (.accept id qp hs ip ua now rid mid)).timeoutTimers =
      setupTimeouts cfg id now st.timeoutTimers := by
  simp only [stepEvent]
  cases callBackendRequest cfg "$connect" ⟨id, WS_OPEN, now, now, qp, hs, ip, ua⟩ none none
    now rid mid <;> rfl

theorem stepEvent_connectResult_timers (cfg : GatewayConfig) (st : GatewayState)
    (id : String) (success : Bool) :
    (stepEvent cfg st (.connectResult id success)).timeoutTimers = st.timeoutTimers := by
  simp only [stepEvent]
  repeat' split
  all_goals rfl

theorem stepEvent_message_timers (cfg : GatewayConfig) (st : GatewayState)
    (id text : String) (parsed : Option Json) (now : Nat) (rid mid : String) :
    (stepEvent cfg st (.message id text parsed now rid mid)).timeoutTimers =
      match alookup id st.registry with
      | none => st.timeoutTimers
      | some _ => resetIdleTimeout cfg id now st.timeoutTimers := by
  simp only [stepEvent]
  cases alookup id st.registry with
  | none => rfl
  | some c =>
      dsimp only
      cases callBackendRequest cfg (selectRoute cfg parsed) { c with lastActivityAt := now }
        (some text) none now rid mid <;> rfl

theorem stepEvent_close_timers (cfg : GatewayConfig) (st : GatewayState)
    (id : String) (code : Nat) (reason : String) (now : Nat) (rid mid : String) :
    (stepEvent cfg st (.closeEvt id code reason now rid mid)).timeoutTimers =
      match alookup id st.registry with
      | none => st.timeoutTimers
      | some _ => clearTimeouts id st.timeoutTimers := by
  simp only [stepEvent]
  cases alookup id st.registry with
  | none => rfl
  | some c =>
      dsimp only
      cases callBackendRequest cfg "$disconnect" { c with readyState := 3 } none
        (some ⟨code, reason⟩) now rid mid <;> rfl

/-! ### The timer-table invariant -/

/-- Well-formedness of the timer table: no duplicate keys, and every key is a
    session key suffixed `:idle` or `:hard`. -/
def TimersWF (st : GatewayState) : Prop :=
  (st.timeoutTimers.map Prod.fst).Nodup ∧
  ∀ e ∈ st.timeoutTimers, ∃ c, e.1 = idleKey c ∨ e.1 = hardKey c

theorem aset_shape {α : Type} (k : String) (v : α) (l : List (String × α))
    (hl : ∀ e ∈ l, ∃ c, e.1 = idleKey c ∨ e.1 = hardKey c)
    (hk : ∃ c, k = idleKey c ∨ k = hardKey c) :
    ∀ e ∈ aset k v l, ∃ c, e.1 = idleKey c ∨ e.1 = hardKey c := by
  intro e he
  rcases List.mem_cons.mp he with he2 | he2
  · rw [he2]; exact hk
  · exact hl e (List.mem_of_mem_filter he2)

theorem aerase_shape {α : Type} (k : String) (l : List (String × α))
    (hl : ∀ e ∈ l, ∃ c, e.1 = idleKey c ∨ e.1 = hardKey c) :
    ∀ e ∈ aerase k l, ∃ c, e.1 = idleKey c ∨ e.1 = hardKey c :=
  fun e he => hl e (List.mem_of_mem_filter he)

theorem timersWF_step (cfg : GatewayConfig) (st : GatewayState) (e : GEvent)
    (h : TimersWF st) : TimersWF (stepEvent cfg st e) := by
  obtain ⟨hnd, hshape⟩ := h
  cases e with
  | accept id qp hs ip ua now rid mid =>
      constructor
      · rw [stepEvent_accept_timers]
        unfold setupTimeouts resetIdleTimeout
        exact aset_keys_nodup _ _ _ (aset_keys_nodup _ _ _ hnd)
      · rw [stepEvent_accept_timers]
        unfold setupTimeouts resetIdleTimeout
        exact aset_shape _ _ _ (aset_shape _ _ _ hshape ⟨id, Or.inl rfl⟩) ⟨id, Or.inr rfl⟩
  | connectResult id success =>
      rw [TimersWF, stepEvent_connectResult_timers]
      exact ⟨hnd, hshape⟩
  | message id text parsed now rid mid =>
      rw [TimersWF, stepEvent_message_timers]
      cases alookup id st.registry with
      | none => exact ⟨hnd, hshape⟩
      | some c =>
          refine ⟨aset_keys_nodup _ _ _ hnd, ?_⟩
          exact aset_shape _ _ _ hshape ⟨id, Or.inl rfl⟩
  | closeEvt id code reason now rid mid =>
      rw [TimersWF, stepEvent_close_timers]
      cases alookup id st.registry with
      | none => exact ⟨hnd, hshape⟩
      | some c =>
          refine ⟨aerase_keys_nodup _ _ (aerase_keys_nodup _ _ hnd), ?_⟩
          exact aerase_shape _ _ (aerase_shape _ _ hshape)
  | mgmt m cid b now =>
      rw [TimersWF]
      simp only [stepEvent]
      rw [handleManagementApi_timers]
      exact ⟨hnd, hshape⟩
  | stop =>
      simp [TimersWF, stepEvent]

theorem timersWF_run (cfg : GatewayConfig) (tr : List GEvent) : TimersWF (runTrace cfg tr) := by
  rw [runTrace]
  have h0 : TimersWF initialState := by simp [TimersWF, initialState]
  generalize initialState = st at h0 ⊢
  induction tr generalizing st with
  | nil => exact h0
  | cons e rest ih =>
      rw [List.foldl_cons]
      exact ih (stepEvent cfg st e) (timersWF_step cfg st e h0)

/-! ### Hard-timer persistence and idle-reset facts -/

/-- Events that legitimately change the timers of session `cid`: its own
    (re-)admission, the observation of its socket close, and process stop.
    Inbound frames and management requests are deliberately not included:
    they are the "activity" the hard timer must survive. -/
def touchesSession (cid : String) : GEvent → Prop
  | .accept id _ _ _ _ _ _ _ => id = cid
  | .closeEvt id _ _ _ _ _ => id = cid
  | .stop => True
  | _ => False

theorem hard_persist (cfg : GatewayConfig) (cid : String) (acts : List GEvent) :
    ∀ st : GatewayState, (∀ e ∈ acts, ¬touchesSession cid e) →
      alookup (hardKey cid) ((acts.foldl (stepEvent cfg) st)).timeoutTimers =
        alookup (hardKey cid) st.timeoutTimers := by
  induction acts with
  | nil => intro st _; rfl
  | cons e rest ih =>
      intro st h
      have he := h e (List.mem_cons_self e rest)
      have hrest : ∀ x ∈ rest, ¬touchesSession cid x := fun x hx =>
        h x (List.mem_cons_of_mem e hx)
      rw [List.foldl_cons, ih (stepEvent cfg st e) hrest]
      cases e with
      | accept id qp hs ip ua now rid mid =>
          have hid : id ≠ cid := fun hh => he hh
          rw [stepEvent_accept_timers]
          unfold setupTimeouts resetIdleTimeout
          rw [alookup_aset_ne _ _ _ _ (fun hh => hid (hardKey_inj id cid hh.symm))]
          rw [alookup_aset_ne _ _ _ _ (fun hh => idleKey_ne_hardKey id cid hh.symm)]
      | connectResult id success => rw [stepEvent_connectResult_timers]
      | message id text parsed now rid mid =>
          rw [stepEvent_message_timers]
          cases alookup id st.registry with
          | none => rfl
          | some c =>
              unfold resetIdleTimeout
              exact alookup_aset_ne _ _ _ _ (fun hh => idleKey_ne_hardKey id cid hh.symm)
      | closeEvt id code reason now rid mid =>
          have hid : id ≠ cid := fun hh => he hh
          rw [stepEvent_close_timers]
          cases alookup id st.registry with
          | none => rfl
          | some c =>
              unfold clearTimeouts
              rw [alookup_aerase_ne _ _ _ (fun hh => idleKey_ne_hardKey id cid hh.symm)]
              rw [alookup_aerase_ne _ _ _ (fun hh => hid (hardKey_inj id cid hh.symm))]
      | mgmt m cid2 b now =>
          simp only [stepEvent]
          rw [handleManagementApi_timers]
      | stop => exact absurd trivial he

theorem accept_sets_timers (cfg : GatewayConfig) (st : GatewayState) (cid : String)
    (qp hs : List (String × String)) (ip ua : String) (now : Nat) (rid mid : String) :
    alookup (hardKey cid)
        (stepEvent cfg st (.accept cid qp hs ip ua now rid mid)).timeoutTimers =
      some ⟨now, cfg.hardTimeout * 1000⟩ ∧
    alookup (idleKey cid)
        (stepEvent cfg st (.accept cid qp hs ip ua now rid mid)).timeoutTimers =
      some ⟨now, cfg.idleTimeout * 1000⟩ := by
  rw [stepEvent_accept_timers]
  unfold setupTimeouts resetIdleTimeout
  constructor
  · exact alookup_aset_self _ _ _
  · rw [alookup_aset_ne _ _ _ _ (idleKey_ne_hardKey cid cid)]
    exact alookup_aset_self _ _ _

theorem message_resets_idle (cfg : GatewayConfig) (st : GatewayState) (cid : String)
    (text : String) (parsed : Option Json) (now : Nat) (rid mid : String) (c : Connection)
    (hc : alookup cid st.registry = some c) :
    alookup (idleKey cid)
        (stepEvent cfg st (.message cid text parsed now rid mid)).timeoutTimers =
      some ⟨now, cfg.idleTimeout * 1000⟩ ∧
    ∀ k, k ≠ idleKey cid →
      alookup k (stepEvent cfg st (.message cid text parsed now rid mid)).timeoutTimers =
        alookup k st.timeoutTimers := by
  rw [stepEvent_message_timers, hc]
  unfold resetIdleTimeout
  exact ⟨alookup_aset_self _ _ _, fun k hk => alookup_aset_ne _ _ _ _ hk⟩

/-! ### Dispatch-log counting -/

/-- Number of `DISCONNECT`-typed backend POSTs for connection `cid` in a
    dispatch log. -/
def disconnectCount (cid : String) (log : List OutRequest) : Nat :=
  log.countP (fun r => decide (r.event.requestContext.eventType = EventType.DISCONNECT ∧
    r.event.requestContext.connectionId = cid))

/-- Per-session timer entries: those keyed `<cid>:idle` or `<cid>:hard`. -/
def sessionTimerCount (cid : String) (timers : List (String × TimerEntry)) : Nat :=
  timers.countP (fun e => e.1 == idleKey cid || e.1 == hardKey cid)

theorem sessionTimerCount_le_two (cfg : GatewayConfig) (tr : List GEvent) (cid : String) :
    sessionTimerCount cid (runTrace cfg tr).timeoutTimers ≤ 2 := by
  have hwf := timersWF_run cfg tr
  calc sessionTimerCount cid (runTrace cfg tr).timeoutTimers
      ≤ (runTrace cfg tr).timeoutTimers.countP (fun e => e.1 == idleKey cid) +
          (runTrace cfg tr).timeoutTimers.countP (fun e => e.1 == hardKey cid) :=
        countP_or_le _ _ _
    _ ≤ 1 + 1 :=
        Nat.add_le_add (countP_key_le_one _ _ hwf.1) (countP_key_le_one _ _ hwf.1)
    _ ≤ 2 := by omega

/-! ### Multi-value header lemmas -/

theorem buildMultiValueHeaders_keys (hs : List (String × String)) :
    (buildMultiValueHeaders hs).map Prod.fst = hs.map Prod.fst := by
  simp [buildMultiValueHeaders]

theorem buildMultiValueHeaders_lookup (hs : List (String × String)) (k : String) (v : String)
    (h : alookup k hs = some v) : alookup k (buildMultiValueHeaders hs) = some [v] := by
  induction hs with
  | nil => simp [alookup] at h
  | cons e rest ih =>
      simp only [buildMultiValueHeaders, List.map, alookup] at h ⊢
      by_cases he : e.1 = k
      · simp only [if_pos he] at h ⊢
        rw [Option.some_inj.mp h]
      · simp only [if_neg he] at h ⊢
        exact ih h

/-! ### Concrete fixtures for witnesses and counterexamples

`testCfg` mirrors the configuration of `tests/e2e/setup.ts` (`TestContext`);
`httpTestCfg` the `HttpTestContext` one (`integrationMode: 'http'`). -/

def testCfg : GatewayConfig :=
  { port := 14001
    stage := "test"
    apiId := "testapi"
    domainName := "localhost:14001"
    integrationMode := .lambda_proxy
    routeSelectionExpression := none
    routes :=
      [ ("$connect", ⟨"http://localhost:14002/connect"⟩)
      , ("$disconnect", ⟨"http://localhost:14002/disconnect"⟩)
      , ("$default", ⟨"http://localhost:14002/default"⟩) ]
    idleTimeout := 600
    hardTimeout := 7200
    verbose := false }

def httpTestCfg : GatewayConfig := { testCfg with integrationMode := .http }

/-- A configuration whose route table has no `$connect` key. -/
def cfg3 : GatewayConfig :=
  { testCfg with routes := [("$default", ⟨"http://localhost:14002/default"⟩)] }

/-- The `Custom route selection` configuration of the routing tests. -/
def cfg7 : GatewayConfig :=
  { testCfg with
      routeSelectionExpression := some "$request.body.action"
      routes := testCfg.routes ++ [("join", ⟨"http://localhost:14010/join"⟩)] }

def connEx : Connection :=
  { id := "abc123def45="
    readyState := WS_OPEN
    connectedAt := 0
    lastActivityAt := 0
    queryParams := [("token", "abc")]
    headers := [("host", "localhost:14001")]
    sourceIp := "127.0.0.1"
    userAgent := "" }

def acceptEv (id : String) (now : Nat) : GEvent :=
  .accept id [] [("host", "localhost:14001")] "127.0.0.1" "" now "req-1" "msg-1"

/-! ### Claim C10 -/

/-- C10: a management request whose `\x7bid\x7d` segment contains malformed
    percent-encoding — for example the path `/@connections/%` — makes the
    `decodeURIComponent` step of the HTTP request handler throw a `URIError`,
    so the handler produces none of the specified responses (200, 204, 404,
    405 or 410) for that request. -/
theorem C10_malformed_percent_throws (st : GatewayState) (method reqBody : String) (now : Nat) :
    handleHttpRequest st method "/@connections/%" reqBody now = .error .uriError := by
  unfold handleHttpRequest
  rw [if_neg (fun h => absurd h.2 (by decide))]
  rfl

/-! ### Claim C2 -/

/-- C2 (code bug): the claimed `http-headers` integration mode is declared in
    the configuration types (whose doc comment, the http-mode test suite and
    the specification all describe raw bodies, `connectionId` /
    `x-event-type` / `x-route-key` context headers and query-string
    forwarding), but `callBackend` never consults `integrationMode`: under
    the http-mode test configuration the outbound request is identical to the
    lambda-proxy one — the wrapped JSON event as body, `Content-Type` as the
    only header, no `connectionId` header, and the connect-time query
    parameters not appended to the URL. -/
theorem C2_integrationMode_ignored :
    (∀ (cfg : GatewayConfig) (rk : String) (conn : Connection) (body : Option String)
      (opts : Option DisconnectOptions) (now : Nat) (rid mid : String),
      callBackendRequest { cfg with integrationMode := .http } rk conn body opts now rid mid =
        callBackendRequest { cfg with integrationMode := .lambda_proxy } rk conn body opts
          now rid mid) ∧
    (callBackendRequest httpTestCfg "$default" connEx (some "test message") none 0 "r" "m").map
        (fun r => r.headers) = some [("Content-Type", "application/json")] ∧
    (callBackendRequest httpTestCfg "$default" connEx (some "test message") none 0 "r" "m").map
        (fun r => alookup "connectionId" r.headers) = some none ∧
    (callBackendRequest httpTestCfg "$default" connEx (some "test message") none 0 "r" "m").map
        (fun r => r.uri) = some "http://localhost:14002/default" ∧
    (callBackendRequest httpTestCfg "$default" connEx (some "test message") none 0 "r" "m").map
        (fun r => r.event.body) = some (some "test message") ∧
    (callBackendRequest httpTestCfg "$default" connEx (some "test message") none 0 "r" "m").map
        (fun r => r.event.queryStringParameters) = some (some [("token", "abc")]) := by
  refine ⟨fun cfg rk conn body opts now rid mid => rfl, ?_, ?_, ?_, ?_, ?_⟩ <;> decide

/-! ### Claim C3 -/

/-- C3 (counterexample): with a route table holding only `$default`, a
    `$connect` dispatch does not fail unreachable — it is sent to the
    `$default` integration URI, because `callBackend` resolves
    `routes[routeKey] || routes['$default']` for every event type. -/
theorem C3_counterexample :
    alookup "$connect" cfg3.routes = none ∧
    (callBackendRequest cfg3 "$connect" connEx none none 0 "r" "m").map (fun r => r.uri) =
      some "http://localhost:14002/default" ∧
    ¬(callBackendRequest cfg3 "$connect" connEx none none 0 "r" "m" = none) := by
  refine ⟨by decide, by decide, by decide⟩

/-- C3 (amended): for every dispatch — connect, disconnect and message alike —
    the integration is resolved by a JS property read of the exact route key
    first: an own route entry is POSTed to its own URI; a key with no own
    entry that names an `Object.prototype` member (such as `toString`)
    yields the inherited truthy value, so the `||` does not fall back to
    `$default` — the fetch then throws on the undefined URI and nothing is
    sent anywhere; only when the key's read is falsy does resolution fall
    back to the own `$default` entry; and when that too is absent the
    dispatch fails (warned, unreachable for the emulator's own route keys)
    without being sent anywhere. -/
theorem C3_resolution (cfg : GatewayConfig) (rk : String) (conn : Connection)
    (body : Option String) (opts : Option DisconnectOptions) (now : Nat) (rid mid : String) :
    (∀ i, alookup rk cfg.routes = some i →
      (callBackendRequest cfg rk conn body opts now rid mid).map (fun r => r.uri) = some i.uri) ∧
    (alookup rk cfg.routes = none → objectPrototypeKeys.contains rk = true →
      callBackendRequest cfg rk conn body opts now rid mid = none) ∧
    (∀ d, alookup rk cfg.routes = none → objectPrototypeKeys.contains rk = false →
      alookup "$default" cfg.routes = some d →
      (callBackendRequest cfg rk conn body opts now rid mid).map (fun r => r.uri) = some d.uri) ∧
    (alookup rk cfg.routes = none → objectPrototypeKeys.contains rk = false →
      alookup "$default" cfg.routes = none →
      callBackendRequest cfg rk conn body opts now rid mid = none) := by
  refine ⟨fun i hi => ?_, fun hn hp => ?_, fun d hn hp hd => ?_, fun hn hp hd => ?_⟩
  · unfold callBackendRequest propRead
    rw [hi]
    rfl
  · unfold callBackendRequest propRead
    rw [hn, hp]
    rfl
  · unfold callBackendRequest propRead
    rw [hn, hp, hd]
    rfl
  · unfold callBackendRequest propRead
    rw [hn, hp, hd]
    rfl

/-- Witness for C3_resolution: an own key, the `$default` fallback, and the
    inherited `toString` read that suppresses both. -/
theorem C3_resolution_witness :
    (callBackendRequest testCfg "$connect" connEx none none 0 "r" "m").map (fun r => r.uri) =
      some "http://localhost:14002/connect" ∧
    (callBackendRequest cfg3 "$connect" connEx none none 0 "r" "m").map (fun r => r.uri) =
      some "http://localhost:14002/default" ∧
    callBackendRequest testCfg "toString" connEx (some "x") none 0 "r" "m" = none := by
  refine ⟨?_, ?_, ?_⟩
  · exact (C3_resolution testCfg "$connect" connEx none none 0 "r" "m").1
      ⟨"http://localhost:14002/connect"⟩ (by decide)
  · exact (C3_resolution cfg3 "$connect" connEx none none 0 "r" "m").2.2.1
      ⟨"http://localhost:14002/default"⟩ (by decide) (by decide) (by decide)
  · exact (C3_resolution testCfg "toString" connEx (some "x") none 0 "r" "m").2.1
      (by decide) (by decide)

/-! ### Claim C9 -/

/-- C9: every `requestTime` string placed in an event's `requestContext`
    (for any clock value up to the year-10000 boundary) matches the regex
    `^\d\x7b2\x7d/(Jan|Feb|Mar|Apr|May|Jun|Jul|Aug|Sep|Oct|Nov|Dec)/\d\x7b4\x7d:\d\x7b2\x7d:\d\x7b2\x7d:\d\x7b2\x7d \+0000$`
    (UTC, English three-letter month, zero-padded components), and decoding
    it as a UTC time yields `now / 1000` seconds — a moment within one
    second below `requestTimeEpoch` of the same event, hence within ±2
    seconds of it. -/
theorem C9_requestTime (cfg : GatewayConfig) (conn : Connection) (rk : String)
    (et : EventType) (opts : Option DisconnectOptions) (now : Nat) (rid mid : String)
    (h : now < 253402300800000) :
    matchesRequestTimeRegex
        (buildRequestContext cfg conn rk et opts now rid mid).requestTime = true ∧
    decodeRequestTime ((buildRequestContext cfg conn rk et opts now rid mid).requestTime) =
      some (now / 1000) ∧
    (buildRequestContext cfg conn rk et opts now rid mid).requestTimeEpoch = now ∧
    now / 1000 * 1000 ≤ now ∧ now ≤ now / 1000 * 1000 + 2000 := by
  have hs := formatRequestTime_spec now h
  exact ⟨hs.1, hs.2.1, rfl, hs.2.2.1, hs.2.2.2⟩

/-- Witness for C9_requestTime at the clock value 2024-01-01T00:00:00.123Z. -/
theorem C9_requestTime_witness :
    (1704067200123 : Nat) < 253402300800000 ∧
    (matchesRequestTimeRegex
        (buildRequestContext testCfg connEx "$default" .MESSAGE none 1704067200123 "r"
          "m").requestTime = true ∧
      decodeRequestTime ((buildRequestContext testCfg connEx "$default" .MESSAGE none
          1704067200123 "r" "m").requestTime) = some (1704067200123 / 1000) ∧
      (buildRequestContext testCfg connEx "$default" .MESSAGE none 1704067200123 "r"
          "m").requestTimeEpoch = 1704067200123 ∧
      1704067200123 / 1000 * 1000 ≤ 1704067200123 ∧
      (1704067200123 : Nat) ≤ 1704067200123 / 1000 * 1000 + 2000) :=
  ⟨by decide, C9_requestTime testCfg connEx "$default" .MESSAGE none 1704067200123 "r" "m"
    (by decide)⟩

/-! ### Claim C6 -/

/-- C6 (counterexample): with the custom-expression configuration, the frame
    `\x7b"action":"toString"\x7d` selects the route key `toString` even
    though the route table has no such entry — the truthiness test
    `this.config.routes[value]` finds the inherited
    `Object.prototype.toString` through the prototype chain — where the
    claim's "a string not present in the table" case requires `$default`. -/
theorem C6_counterexample :
    alookup "toString" cfg7.routes = none ∧
    selectRoute cfg7 (some (.obj [("action", .str "toString")])) = "toString" ∧
    ¬(selectRoute cfg7 (some (.obj [("action", .str "toString")])) = "$default") := by
  refine ⟨by decide, by decide, by decide⟩

/-- C6 (amended): route selection returns `$default` when no route-selection
    expression is configured; `$default` when the message is not valid JSON;
    `$default` when walking the dot-separated path of the expression reaches
    a value that is not an object (in the JS sense — a truthy
    `typeof 'object'` value, i.e. a JSON object or array) or a member that
    is absent; the terminal value itself when it is a string whose property
    read on the integration table is truthy — an own route key, or a key
    naming an inherited `Object.prototype` member such as `toString`; and
    `$default` in every other case (numeric, boolean, array or object
    terminal, or a string whose read on the table is falsy). -/
theorem C6_selectRoute (cfg : GatewayConfig) (parsed : Option Json) :
    (cfg.routeSelectionExpression = none → selectRoute cfg parsed = "$default") ∧
    (parsed = none → selectRoute cfg parsed = "$default") ∧
    (∀ e v path, cfg.routeSelectionExpression = some e → parsed = some v →
      rsePath e = some path → walkPath v path = none → selectRoute cfg parsed = "$default") ∧
    (∀ e v path s, cfg.routeSelectionExpression = some e → parsed = some v →
      rsePath e = some path → walkPath v path = some (.str s) →
      isTruthyProp (propRead cfg.routes s) = true → selectRoute cfg parsed = s) ∧
    (∀ e v path s, cfg.routeSelectionExpression = some e → parsed = some v →
      rsePath e = some path → walkPath v path = some (.str s) →
      isTruthyProp (propRead cfg.routes s) = false → selectRoute cfg parsed = "$default") ∧
    (∀ e v path tv, cfg.routeSelectionExpression = some e → parsed = some v →
      rsePath e = some path → walkPath v path = some tv → (∀ s, tv ≠ .str s) →
      selectRoute cfg parsed = "$default") := by
  have hempty : rsePath "" = none := by decide
  refine ⟨?_, ?_, ?_, ?_, ?_, ?_⟩
  · intro h
    simp only [selectRoute, h]
  · intro h
    simp only [selectRoute, h]
    cases cfg.routeSelectionExpression with
    | none => rfl
    | some e => by_cases he : e = "" <;> simp [he]
  · intro e v path he hv hpath hwalk
    have hne : e ≠ "" := fun hh => by rw [hh] at hpath; rw [hempty] at hpath; cases hpath
    simp only [selectRoute, he, hv, hpath, hwalk, if_neg hne]
  · intro e v path s he hv hpath hwalk hsome
    have hne : e ≠ "" := fun hh => by rw [hh] at hpath; rw [hempty] at hpath; cases hpath
    simp only [selectRoute, he, hv, hpath, hwalk, if_neg hne, hsome, if_true]
  · intro e v path s he hv hpath hwalk hnone
    have hne : e ≠ "" := fun hh => by rw [hh] at hpath; rw [hempty] at hpath; cases hpath
    simp only [selectRoute, he, hv, hpath, hwalk, if_neg hne, hnone, if_false,
      Bool.false_eq_true]
  · intro e v path tv he hv hpath hwalk hnstr
    have hne : e ≠ "" := fun hh => by rw [hh] at hpath; rw [hempty] at hpath; cases hpath
    simp only [selectRoute, he, hv, hpath, hwalk, if_neg hne]
    cases tv with
    | str s => exact absurd rfl (hnstr s)
    | null => rfl
    | bool b => rfl
    | num n => rfl
    | arr elems => rfl
    | obj fields => rfl

/-- Witness for C6_selectRoute: a configured expression, a matching string
    terminal present in the table, and the fall-back cases. -/
theorem C6_selectRoute_witness :
    selectRoute cfg7 (some (.obj [("action", .str "join")])) = "join" ∧
    selectRoute cfg7 none = "$default" ∧
    selectRoute cfg7 (some (.obj [("action", .num 7)])) = "$default" ∧
    selectRoute cfg7 (some (.obj [("data", .str "x")])) = "$default" ∧
    selectRoute testCfg (some (.obj [("action", .str "join")])) = "$default" := by
  refine ⟨?_, ?_, ?_, ?_, ?_⟩
  · exact (C6_selectRoute cfg7 (some (.obj [("action", .str "join")]))).2.2.2.1
      "$request.body.action" (.obj [("action", .str "join")]) ["action"] "join"
      (by decide) rfl (by decide) rfl (by decide)
  · exact (C6_selectRoute cfg7 none).2.1 rfl
  · exact (C6_selectRoute cfg7 (some (.obj [("action", .num 7)]))).2.2.2.2.2
      "$request.body.action" (.obj [("action", .num 7)]) ["action"] (.num 7)
      (by decide) rfl (by decide) rfl (by intro s h; cases h)
  · exact (C6_selectRoute cfg7 (some (.obj [("data", .str "x")]))).2.2.1
      "$request.body.action" (.obj [("data", .str "x")]) ["action"]
      (by decide) rfl (by decide) rfl
  · exact (C6_selectRoute testCfg (some (.obj [("action", .str "join")]))).1 rfl

/-! ### Claim C4 -/

/-- C4 (counterexample): a successful management POST on a live open session
    bumps `lastActivityAt` but leaves the timer table untouched — the idle
    timer is not cancelled or rescheduled.  Here the session was admitted at
    time 0 (idle timer scheduled at 0) and the POST succeeds at time 5000,
    yet the idle entry still reads `scheduledAt = 0`. -/
theorem C4_counterexample :
    (handleManagementApi (runTrace testCfg [acceptEv "c1" 0]) "POST" "c1" "hello" 5000).1.status
      = 200 ∧
    (handleManagementApi (runTrace testCfg [acceptEv "c1" 0]) "POST" "c1" "hello"
        5000).2.timeoutTimers = (runTrace testCfg [acceptEv "c1" 0]).timeoutTimers ∧
    alookup (idleKey "c1")
        (handleManagementApi (runTrace testCfg [acceptEv "c1" 0]) "POST" "c1" "hello"
          5000).2.timeoutTimers = some ⟨0, 600000⟩ ∧
    ¬(alookup (idleKey "c1")
        (handleManagementApi (runTrace testCfg [acceptEv "c1" 0]) "POST" "c1" "hello"
          5000).2.timeoutTimers = some ⟨5000, 600000⟩) := by
  refine ⟨by decide, by decide, by decide, by decide⟩

/-- C4 (amended): for every successful management POST on a live open
    session, the response is 200, the frame is written to the socket, the
    session's `lastActivity` timestamp is bumped to the POST time — and both
    timers are left exactly as they were: neither the idle nor the hard
    timer is cancelled or rescheduled (only inbound frames reset the idle
    timer). -/
theorem C4_post_bumps_activity_only (st : GatewayState) (cid body : String) (now : Nat)
    (c : Connection) (hc : connGet st cid = some c) (hopen : c.readyState = WS_OPEN) :
    (handleManagementApi st "POST" cid body now).1.status = 200 ∧
    (handleManagementApi st "POST" cid body now).2.timeoutTimers = st.timeoutTimers ∧
    alookup cid (handleManagementApi st "POST" cid body now).2.registry =
      some { c with lastActivityAt := now } ∧
    (handleManagementApi st "POST" cid body now).2.sentFrames =
      st.sentFrames ++ [(cid, body)] := by
  simp only [handleManagementApi]
  rw [hc]
  simp [hopen, alookup_aset_self]

/-- Witness for C4_post_bumps_activity_only on a freshly admitted session. -/
theorem C4_post_witness :
    (handleManagementApi (runTrace testCfg [acceptEv "c1" 0]) "POST" "c1" "hello" 5000).1.status
      = 200 ∧
    (handleManagementApi (runTrace testCfg [acceptEv "c1" 0]) "POST" "c1" "hello"
        5000).2.timeoutTimers = (runTrace testCfg [acceptEv "c1" 0]).timeoutTimers ∧
    alookup "c1" (handleManagementApi (runTrace testCfg [acceptEv "c1" 0]) "POST" "c1" "hello"
        5000).2.registry =
      some { id := "c1", readyState := 1, connectedAt := 0, lastActivityAt := 5000,
             queryParams := [], headers := [("host", "localhost:14001")],
             sourceIp := "127.0.0.1", userAgent := "" } ∧
    (handleManagementApi (runTrace testCfg [acceptEv "c1" 0]) "POST" "c1" "hello"
        5000).2.sentFrames = (runTrace testCfg [acceptEv "c1" 0]).sentFrames ++ [("c1", "hello")] :=
  C4_post_bumps_activity_only (runTrace testCfg [acceptEv "c1" 0]) "c1" "hello" 5000
    { id := "c1", readyState := 1, connectedAt := 0, lastActivityAt := 0,
      queryParams := [], headers := [("host", "localhost:14001")],
      sourceIp := "127.0.0.1", userAgent := "" } (by decide) (by decide)

/-! ### Claim C5 -/

/-- C5 (counterexample): after a successful management DELETE the session's
    socket has left the OPEN state but the session is still in the live set;
    a GET on it returns 200 with the connection info, not the 410 Gone the
    claim requires for a session whose socket is closed. -/
theorem C5_counterexample :
    ((connGet (runTrace testCfg [acceptEv "c1" 0, .mgmt "DELETE" "c1" "" 1]) "c1").map
        (fun c => c.readyState)) = some 2 ∧
    ¬((connGet (runTrace testCfg [acceptEv "c1" 0, .mgmt "DELETE" "c1" "" 1]) "c1").map
        (fun c => c.readyState) = some WS_OPEN) ∧
    (handleManagementApi (runTrace testCfg [acceptEv "c1" 0, .mgmt "DELETE" "c1" "" 1])
        "GET" "c1" "" 2).1.status = 200 ∧
    ¬((handleManagementApi (runTrace testCfg [acceptEv "c1" 0, .mgmt "DELETE" "c1" "" 1])
        "GET" "c1" "" 2).1.status = 410) := by
  refine ⟨by decide, by decide, by decide, by decide⟩

/-- C5 (amended): POST and DELETE return 410 with the
    `\x7b"message":"Gone","connectionId":"…"\x7d` body when the session is
    absent from the live set or its socket is not open; GET returns that 410
    body only when the session is absent — a present session is answered 200
    with its info even when its socket is no longer open. -/
theorem C5_gone_handling (st : GatewayState) (cid body : String) (now : Nat) :
    (connGet st cid = none →
      (handleManagementApi st "GET" cid body now).1 = ⟨410, .gone cid⟩ ∧
      (handleManagementApi st "POST" cid body now).1 = ⟨410, .gone cid⟩ ∧
      (handleManagementApi st "DELETE" cid body now).1 = ⟨410, .gone cid⟩) ∧
    (∀ c, connGet st cid = some c → c.readyState ≠ WS_OPEN →
      (handleManagementApi st "POST" cid body now).1 = ⟨410, .gone cid⟩ ∧
      (handleManagementApi st "DELETE" cid body now).1 = ⟨410, .gone cid⟩) ∧
    (∀ c, connGet st cid = some c →
      (handleManagementApi st "GET" cid body now).1 =
        ⟨200, .connInfo cid c.connectedAt c.lastActivityAt⟩) := by
  refine ⟨fun hnone => ?_, fun c hc hrs => ?_, fun c hc => ?_⟩
  · simp only [handleManagementApi]
    rw [hnone]
    simp
  · simp only [handleManagementApi]
    rw [hc]
    simp [hrs]
  · simp only [handleManagementApi]
    rw [hc]
    simp

/-- Witness for C5_gone_handling: an absent id answers 410 Gone on all three
    methods; a present session with a closing socket answers 410 to POST and
    200 to GET. -/
theorem C5_gone_witness :
    ((handleManagementApi (runTrace testCfg [acceptEv "c1" 0]) "GET" "nope" "" 1).1 =
        ⟨410, .gone "nope"⟩ ∧
      (handleManagementApi (runTrace testCfg [acceptEv "c1" 0]) "POST" "nope" "" 1).1 =
        ⟨410, .gone "nope"⟩ ∧
      (handleManagementApi (runTrace testCfg [acceptEv "c1" 0]) "DELETE" "nope" "" 1).1 =
        ⟨410, .gone "nope"⟩) ∧
    (handleManagementApi (runTrace testCfg [acceptEv "c1" 0, .mgmt "DELETE" "c1" "" 1])
        "POST" "c1" "x" 2).1 = ⟨410, .gone "c1"⟩ ∧
    (handleManagementApi (runTrace testCfg [acceptEv "c1" 0, .mgmt "DELETE" "c1" "" 1])
        "GET" "c1" "" 2).1 = ⟨200, .connInfo "c1" 0 0⟩ := by
  refine ⟨(C5_gone_handling (runTrace testCfg [acceptEv "c1" 0]) "nope" "" 1).1 (by decide),
    ((C5_gone_handling (runTrace testCfg [acceptEv "c1" 0, .mgmt "DELETE" "c1" "" 1]) "c1" "x"
        2).2.1
      { id := "c1", readyState := 2, connectedAt := 0, lastActivityAt := 0,
        queryParams := [], headers := [("host", "localhost:14001")],
        sourceIp := "127.0.0.1", userAgent := "" } (by decide) (by decide)).1,
    (C5_gone_handling (runTrace testCfg [acceptEv "c1" 0, .mgmt "DELETE" "c1" "" 1]) "c1" "" 2).2.2
      { id := "c1", readyState := 2, connectedAt := 0, lastActivityAt := 0,
        queryParams := [], headers := [("host", "localhost:14001")],
        sourceIp := "127.0.0.1", userAgent := "" } (by decide)⟩

/-! ### Claim C7 -/

/-- C7 (counterexample): with the route-selection expression
    `$request.body.action` configured and `$connect` present in the route
    table, the inbound frame `\x7b"action":"$connect"\x7d` selects the route
    key `$connect`, so the dispatched payload has `eventType` `CONNECT` with
    a non-null `body` — the frame text — contradicting the claim that the
    body of every CONNECT payload is the JSON literal null. -/
theorem C7_counterexample :
    ((runTrace cfg7 [acceptEv "c1" 0,
        .message "c1" "\x7b\"action\":\"$connect\"\x7d"
          (some (.obj [("action", .str "$connect")])) 5 "req-2" "msg-2"]).dispatchLog[1]?).map
        (fun r => (r.event.requestContext.eventType, r.event.body)) =
      some (EventType.CONNECT, some "\x7b\"action\":\"$connect\"\x7d") ∧
    ¬(((runTrace cfg7 [acceptEv "c1" 0,
        .message "c1" "\x7b\"action\":\"$connect\"\x7d"
          (some (.obj [("action", .str "$connect")])) 5 "req-2" "msg-2"]).dispatchLog[1]?).map
        (fun r => r.event.body) = some none) := by
  refine ⟨by decide, by decide⟩

/-- C7 (amended): in every lambda-proxy payload, `multiValueHeaders` has
    exactly the keys of `headers` and maps each key `k` to the one-element
    array `[headers[k]]`; `queryStringParameters` is the JSON literal null
    iff no query parameters were captured at connect time, and the captured
    map otherwise; `isBase64Encoded` is the boolean false; and `body` is
    exactly the body argument of the dispatch — the frame text for message
    dispatches (whatever route key, and hence `eventType`, was selected for
    the frame) and the JSON literal null for the connect and disconnect
    lifecycle dispatches. -/
theorem C7_payload_shape (cfg : GatewayConfig) (conn : Connection) (rk : String)
    (et : EventType) (body : Option String) (opts : Option DisconnectOptions) (now : Nat)
    (rid mid : String) :
    ((buildLambdaEvent cfg conn rk et body opts now rid mid).multiValueHeaders.map Prod.fst =
      (buildLambdaEvent cfg conn rk et body opts now rid mid).headers.map Prod.fst) ∧
    (∀ k v, alookup k (buildLambdaEvent cfg conn rk et body opts now rid mid).headers = some v →
      alookup k (buildLambdaEvent cfg conn rk et body opts now rid mid).multiValueHeaders =
        some [v]) ∧
    ((buildLambdaEvent cfg conn rk et body opts now rid mid).queryStringParameters = none ↔
      conn.queryParams = []) ∧
    (buildLambdaEvent cfg conn rk et body opts now rid mid).isBase64Encoded = false ∧
    (buildLambdaEvent cfg conn rk et body opts now rid mid).body = body := by
  refine ⟨buildMultiValueHeaders_keys conn.headers,
    fun k v h => buildMultiValueHeaders_lookup conn.headers k v h, ?_, rfl, rfl⟩
  show (if conn.queryParams.length > 0 then some conn.queryParams else none) = none ↔
    conn.queryParams = []
  cases conn.queryParams <;> simp

/-- Witness for C7_payload_shape on a connection with one header and one
    query parameter. -/
theorem C7_payload_witness :
    alookup "host"
        (buildLambdaEvent testCfg connEx "$default" .MESSAGE (some "hi") none 0 "r"
          "m").multiValueHeaders = some ["localhost:14001"] ∧
    ((buildLambdaEvent testCfg connEx "$default" .MESSAGE (some "hi") none 0 "r"
        "m").queryStringParameters = none ↔ connEx.queryParams = []) ∧
    (buildLambdaEvent testCfg connEx "$default" .MESSAGE (some "hi") none 0 "r"
        "m").body = some "hi" :=
  ⟨(C7_payload_shape testCfg connEx "$default" .MESSAGE (some "hi") none 0 "r" "m").2.1
      "host" "localhost:14001" (by decide),
    (C7_payload_shape testCfg connEx "$default" .MESSAGE (some "hi") none 0 "r" "m").2.2.1,
    (C7_payload_shape testCfg connEx "$default" .MESSAGE (some "hi") none 0 "r" "m").2.2.2.2⟩

/-! ### Claim C1 -/

/-- C1 (counterexample): the socket close handler dispatches `$disconnect`
    unconditionally.  A session whose `$connect` dispatch was rejected
    (closed 1011 `Backend connect failed` — the *ClosingFailed* state) and a
    session closed by `stop()` (1001 `Server shutting down` — the
    *ClosingShutdown* state) each still produce exactly one DISCONNECT
    dispatch when their close event fires, where the claim requires none. -/
theorem C1_counterexample :
    disconnectCount "c1" (runTrace testCfg [acceptEv "c1" 0, .connectResult "c1" false,
        .closeEvt "c1" 1011 "Backend connect failed" 10 "req-2" "msg-2"]).dispatchLog = 1 ∧
    ¬(disconnectCount "c1" (runTrace testCfg [acceptEv "c1" 0, .connectResult "c1" false,
        .closeEvt "c1" 1011 "Backend connect failed" 10 "req-2" "msg-2"]).dispatchLog = 0) ∧
    disconnectCount "c1" (runTrace testCfg [acceptEv "c1" 0, .connectResult "c1" true, .stop,
        .closeEvt "c1" 1001 "Server shutting down" 10 "req-2" "msg-2"]).dispatchLog = 1 ∧
    ¬(disconnectCount "c1" (runTrace testCfg [acceptEv "c1" 0, .connectResult "c1" true, .stop,
        .closeEvt "c1" 1001 "Server shutting down" 10 "req-2" "msg-2"]).dispatchLog = 0) := by
  refine ⟨by decide, by decide, by decide, by decide⟩

/-- C1 (amended): the close handler registered at admission dispatches
    DISCONNECT for every observed socket close, whatever the closing cause —
    including a `$connect` that was not accepted and process shutdown.  For
    any state in which the session object exists and the `$disconnect`
    integration is configured, processing the close event appends exactly
    one DISCONNECT dispatch for that session, and the session is removed
    from the live set with its timers cancelled in the same step. -/
theorem C1_close_always_dispatches (cfg : GatewayConfig) (st : GatewayState) (cid : String)
    (c : Connection) (integ : RouteIntegration) (code : Nat) (reason : String) (now : Nat)
    (rid mid : String) (hreg : alookup cid st.registry = some c) (hid : c.id = cid)
    (hroute : alookup "$disconnect" cfg.routes = some integ) :
    disconnectCount cid (stepEvent cfg st (.closeEvt cid code reason now rid mid)).dispatchLog =
      disconnectCount cid st.dispatchLog + 1 ∧
    (stepEvent cfg st (.closeEvt cid code reason now rid mid)).live = st.live.erase cid ∧
    (stepEvent cfg st (.closeEvt cid code reason now rid mid)).timeoutTimers =
      clearTimeouts cid st.timeoutTimers := by
  have hreq : callBackendRequest cfg "$disconnect" { c with readyState := 3 } none
      (some ⟨code, reason⟩) now rid mid =
      some { uri := integ.uri
             headers := [("Content-Type", "application/json")]
             event := buildLambdaEvent cfg { c with readyState := 3 } "$disconnect"
               (getEventType "$disconnect") none (some ⟨code, reason⟩) now rid mid } := by
    unfold callBackendRequest propRead
    rw [hroute]
    rfl
  simp only [stepEvent, hreg]
  rw [hreq]
  refine ⟨?_, rfl, rfl⟩
  unfold disconnectCount
  rw [List.countP_append]
  simp [List.countP_cons, buildLambdaEvent, buildRequestContext, getEventType, hid]

/-- Witness for C1_close_always_dispatches: the very *ClosingFailed* session
    of the counterexample trace. -/
theorem C1_close_witness :
    disconnectCount "c1" (stepEvent testCfg
        (runTrace testCfg [acceptEv "c1" 0, .connectResult "c1" false])
        (.closeEvt "c1" 1011 "Backend connect failed" 10 "req-2" "msg-2")).dispatchLog =
      disconnectCount "c1"
        (runTrace testCfg [acceptEv "c1" 0, .connectResult "c1" false]).dispatchLog + 1 ∧
    (stepEvent testCfg (runTrace testCfg [acceptEv "c1" 0, .connectResult "c1" false])
        (.closeEvt "c1" 1011 "Backend connect failed" 10 "req-2" "msg-2")).live =
      (runTrace testCfg [acceptEv "c1" 0, .connectResult "c1" false]).live.erase "c1" ∧
    (stepEvent testCfg (runTrace testCfg [acceptEv "c1" 0, .connectResult "c1" false])
        (.closeEvt "c1" 1011 "Backend connect failed" 10 "req-2" "msg-2")).timeoutTimers =
      clearTimeouts "c1"
        (runTrace testCfg [acceptEv "c1" 0, .connectResult "c1" false]).timeoutTimers :=
  C1_close_always_dispatches testCfg
    (runTrace testCfg [acceptEv "c1" 0, .connectResult "c1" false]) "c1"
    { id := "c1", readyState := 2, connectedAt := 0, lastActivityAt := 0,
      queryParams := [], headers := [("host", "localhost:14001")],
      sourceIp := "127.0.0.1", userAgent := "" }
    ⟨"http://localhost:14002/disconnect"⟩ 1011 "Backend connect failed" 10 "req-2" "msg-2"
    (by decide) rfl (by decide)

/-! ### Claim C8 -/

/-- C8: the hard timer is scheduled exactly once, at session creation, for
    `hardTimeout` seconds, and no activity (inbound frames or management
    requests, for any session) ever changes it; in every reachable state the
    timer table has at most two entries per session, keyed `<id>:idle` and
    `<id>:hard`; and an inbound frame replaces the previous idle timer with
    a fresh full-duration one while leaving every other timer entry
    untouched. -/
theorem C8_timer_discipline (cfg : GatewayConfig) (cid : String) :
    (∀ tr : List GEvent,
      sessionTimerCount cid (runTrace cfg tr).timeoutTimers ≤ 2 ∧
      ∀ e ∈ (runTrace cfg tr).timeoutTimers, ∃ c, e.1 = idleKey c ∨ e.1 = hardKey c) ∧
    (∀ (st : GatewayState) (qp hs : List (String × String)) (ip ua : String) (now : Nat)
      (rid mid : String),
      alookup (hardKey cid)
          (stepEvent cfg st (.accept cid qp hs ip ua now rid mid)).timeoutTimers =
        some ⟨now, cfg.hardTimeout * 1000⟩ ∧
      alookup (idleKey cid)
          (stepEvent cfg st (.accept cid qp hs ip ua now rid mid)).timeoutTimers =
        some ⟨now, cfg.idleTimeout * 1000⟩) ∧
    (∀ (acts : List GEvent) (st : GatewayState), (∀ e ∈ acts, ¬touchesSession cid e) →
      alookup (hardKey cid) ((acts.foldl (stepEvent cfg) st)).timeoutTimers =
        alookup (hardKey cid) st.timeoutTimers) ∧
    (∀ (st : GatewayState) (text : String) (parsed : Option Json) (now : Nat)
      (rid mid : String) (c : Connection), alookup cid st.registry = some c →
      alookup (idleKey cid)
          (stepEvent cfg st (.message cid text parsed now rid mid)).timeoutTimers =
        some ⟨now, cfg.idleTimeout * 1000⟩ ∧
      ∀ k, k ≠ idleKey cid →
        alookup k (stepEvent cfg st (.message cid text parsed now rid mid)).timeoutTimers =
          alookup k st.timeoutTimers) :=
  ⟨fun tr => ⟨sessionTimerCount_le_two cfg tr cid, (timersWF_run cfg tr).2⟩,
    fun st qp hs ip ua now rid mid => accept_sets_timers cfg st cid qp hs ip ua now rid mid,
    fun acts st h => hard_persist cfg cid acts st h,
    fun st text parsed now rid mid c hc =>
      message_resets_idle cfg st cid text parsed now rid mid c hc⟩

/-- Witness for C8_timer_discipline: a session admitted at time 0 whose hard
    timer still reads `scheduledAt = 0, duration = 7200000` after an inbound
    frame and a management POST, while its idle timer was rescheduled at the
    frame time. -/
theorem C8_timer_witness :
    sessionTimerCount "c1" (runTrace testCfg [acceptEv "c1" 0,
        .message "c1" "hi" none 3000 "r2" "m2", .mgmt "POST" "c1" "x" 4000]).timeoutTimers
      ≤ 2 ∧
    alookup (hardKey "c1")
        (stepEvent testCfg initialState (acceptEv "c1" 0)).timeoutTimers = some ⟨0, 7200000⟩ ∧
    alookup (hardKey "c1") (([GEvent.message "c1" "hi" none 3000 "r2" "m2",
          GEvent.mgmt "POST" "c1" "x" 4000].foldl (stepEvent testCfg))
        (stepEvent testCfg initialState (acceptEv "c1" 0))).timeoutTimers =
      alookup (hardKey "c1") (stepEvent testCfg initialState (acceptEv "c1" 0)).timeoutTimers ∧
    alookup (idleKey "c1")
        (stepEvent testCfg (stepEvent testCfg initialState (acceptEv "c1" 0))
          (.message "c1" "hi" none 3000 "r2" "m2")).timeoutTimers = some ⟨3000, 600000⟩ := by
  have h := C8_timer_discipline testCfg "c1"
  refine ⟨(h.1 [acceptEv "c1" 0, .message "c1" "hi" none 3000 "r2" "m2",
      .mgmt "POST" "c1" "x" 4000]).1,
    (h.2.1 initialState [] [("host", "localhost:14001")] "127.0.0.1" "" 0 "req-1" "msg-1").1,
    h.2.2.1 [GEvent.message "c1" "hi" none 3000 "r2" "m2", GEvent.mgmt "POST" "c1" "x" 4000]
      (stepEvent testCfg initialState (acceptEv "c1" 0)) ?_,
    (h.2.2.2 (stepEvent testCfg initialState (acceptEv "c1" 0)) "hi" none 3000 "r2" "m2"
      { id := "c1", readyState := 1, connectedAt := 0, lastActivityAt := 0,
        queryParams := [], headers := [("host", "localhost:14001")],
        sourceIp := "127.0.0.1", userAgent := "" } (by decide)).1⟩
  intro e he
  rcases List.mem_cons.mp he with rfl | he2
  · simp [touchesSession]
  · rcases List.mem_singleton.mp he2 with rfl
    simp [touchesSession]
